import Mathlib

/-!
Verification development for the sales-outreach automation platform
(`ai_engine.py`, `automation.py`, `app.py`, `config.py`, `database.py`,
`integrations.py`).  Python text is modelled as `List Char`, Python floats
as `Rat`, JSON values and Python dicts as an inductive `PyVal`, fallible
operations as `Option`/`Except`, and the asynchronous orchestrator as an
explicit transition system.
-/

set_option maxRecDepth 10000

/-- Python text, modelled as a list of characters. -/
abbrev Str := List Char

/-- Characters Python's `str.strip()` removes by default. -/
def isPyWs (c : Char) : Bool :=
  c = ' ' || c = '\n' || c = '\t' || c = '\r' || c = '\x0b' || c = '\x0c'

/-- Model of `str.lstrip()` (default whitespace). -/
def lstripWs (s : Str) : Str := s.dropWhile isPyWs

/-- Model of `str.strip()` (default whitespace). -/
def stripWs (s : Str) : Str := lstripWs ((lstripWs s.reverse).reverse)

/-- Model of `str.strip(chars)`: drop characters of `cs` from both ends. -/
def stripChars (cs : Str) (s : Str) : Str :=
  ((s.dropWhile (fun c => cs.contains c)).reverse.dropWhile (fun c => cs.contains c)).reverse

/-- Model of `str.startswith(pat)`. -/
def startsWith (pat s : Str) : Bool := pat.isPrefixOf s

/-- Model of Python's `pat in s` substring test. -/
def containsSub (pat : Str) : Str → Bool
  | [] => pat.isEmpty
  | c :: rest => pat.isPrefixOf (c :: rest) || containsSub pat rest

/-- Model of `str.lower()`. -/
def lowerStr (s : Str) : Str := s.map Char.toLower

/-- Fuel-driven worker for `str.replace`: replace occurrences of a non-empty
`pat` left to right; the fuel bounds the number of steps and is always at
least the input length at the call site. -/
def replaceSubF (pat rep : Str) : Nat → Str → Str
  | _, [] => []
  | 0, s => s
  | fuel + 1, c :: rest =>
    if !pat.isEmpty && pat.isPrefixOf (c :: rest) then
      rep ++ replaceSubF pat rep fuel ((c :: rest).drop pat.length)
    else
      c :: replaceSubF pat rep fuel rest

/-- One pass of `str.replace(pat, rep)`: replace every occurrence of a
non-empty `pat` left to right (for an empty `pat` the string is returned
unchanged; the source never calls it that way). -/
def replaceSub (pat rep s : Str) : Str := replaceSubF pat rep s.length s

/-- Split a string on a separator character (model of `str.split(sep)` for a
one-character separator). -/
def splitOnChar (sep : Char) (s : Str) : List Str :=
  match s with
  | [] => [[]]
  | c :: rest =>
    let r := splitOnChar sep rest
    if c = sep then [] :: r
    else
      match r with
      | [] => [[c]]
      | h :: t => (c :: h) :: t

/-- Model of `str.split(sep, 1)[0]` / `[1]`: split at the first occurrence of
`sep`, returning the part before and the part after. -/
def splitFirst (sep : Char) (s : Str) : Str × Option Str :=
  match s with
  | [] => ([], none)
  | c :: rest =>
    if c = sep then ([], some rest)
    else
      let (pre, post) := splitFirst sep rest
      (c :: pre, post)

/-- Join a list of strings with a single-space separator (model of
`' '.join(parts)`). -/
def joinSpace : List Str → Str
  | [] => []
  | [x] => x
  | x :: y :: rest => x ++ [' '] ++ joinSpace (y :: rest)

/-- Model of Python `float(s)` on a string: optional sign, digits with an
optional fractional part.  Returns `none` when the text is not a numeric
literal (Python raises `ValueError` there). -/
def pyFloat (s : Str) : Option Rat :=
  let t := stripWs s
  let (sign, t) :=
    match t with
    | '-' :: r => ((-1 : Rat), r)
    | '+' :: r => ((1 : Rat), r)
    | r => ((1 : Rat), r)
  let digits := t.takeWhile Char.isDigit
  let rest := t.dropWhile Char.isDigit
  let intVal : Nat := digits.foldl (fun a c => a * 10 + (c.toNat - 48)) 0
  match rest with
  | [] => if digits.isEmpty then none else some (sign * intVal)
  | '.' :: frac =>
    if frac.all Char.isDigit && !(digits.isEmpty && frac.isEmpty) then
      let fracVal : Nat := frac.foldl (fun a c => a * 10 + (c.toNat - 48)) 0
      some (sign * (intVal + (fracVal : Rat) / ((10 : Rat) ^ frac.length)))
    else none
  | _ => none

/-- Python's `min(a, b)` on floats, written with the directly decidable
rational comparison. -/
def pymin (a b : Rat) : Rat := if a ≤ b then a else b

/-- JSON values / loosely typed Python values (dicts as association lists in
insertion order). -/
inductive PyVal where
  | pstr (s : Str)
  | pnum (q : Rat)
  | pbool (b : Bool)
  | pnull
  | plist (xs : List PyVal)
  | pdict (d : List (Str × PyVal))

/-- Python truthiness of a `PyVal`. -/
def pyTruthy : PyVal → Bool
  | .pstr s => !s.isEmpty
  | .pnum q => q ≠ 0
  | .pbool b => b
  | .pnull => false
  | .plist xs => !xs.isEmpty
  | .pdict d => !d.isEmpty

/-- Model of `dict.get(key, default)`. -/
def dictGet (d : List (Str × PyVal)) (k : Str) (dflt : PyVal) : PyVal :=
  match d.find? (fun kv => kv.1 = k) with
  | some kv => kv.2
  | none => dflt

/-- Membership of a key in a dict. -/
def dictHasKey (d : List (Str × PyVal)) (k : Str) : Bool :=
  d.any (fun kv => kv.1 = k)

/-- Model of `d[key] = v` on a dict whose key may already be present:
replace the first binding, or append a fresh one. -/
def dictSet (d : List (Str × PyVal)) (k : Str) (v : PyVal) : List (Str × PyVal) :=
  match d with
  | [] => [(k, v)]
  | (k', v') :: rest =>
    if k' = k then (k', v) :: rest else (k', v') :: dictSet rest k v

/-! ## JSON parsing (model of `json.loads`) -/

/-- JSON insignificant whitespace. -/
def isJsonWs (c : Char) : Bool := c = ' ' || c = '\t' || c = '\n' || c = '\r'

/-- Skip JSON whitespace. -/
def skipWs (s : Str) : Str := s.dropWhile isJsonWs

/-- Hex digit value. -/
def hexVal (c : Char) : Option Nat :=
  if c.isDigit then some (c.toNat - 48)
  else if 'a' ≤ c ∧ c ≤ 'f' then some (c.toNat - 87)
  else if 'A' ≤ c ∧ c ≤ 'F' then some (c.toNat - 55)
  else none

/-- Parse the body of a JSON string literal (after the opening quote),
returning the decoded text and the remaining input. -/
def parseJsonStr : Str → Option (Str × Str)
  | [] => none
  | '"' :: rest => some ([], rest)
  | '\\' :: esc =>
    match esc with
    | [] => none
    | e :: rest =>
      let simple : Option Char :=
        if e = '"' then some '"'
        else if e = '\\' then some '\\'
        else if e = '/' then some '/'
        else if e = 'b' then some '\x08'
        else if e = 'f' then some '\x0c'
        else if e = 'n' then some '\n'
        else if e = 'r' then some '\r'
        else if e = 't' then some '\t'
        else none
      match simple with
      | some c => do
        let (tail, rem) ← parseJsonStr rest
        return (c :: tail, rem)
      | none =>
        if e = 'u' then
          match rest with
          | h1 :: h2 :: h3 :: h4 :: rest' => do
            let v1 ← hexVal h1
            let v2 ← hexVal h2
            let v3 ← hexVal h3
            let v4 ← hexVal h4
            let code := ((v1 * 16 + v2) * 16 + v3) * 16 + v4
            let c := if code < 0xd800 then Char.ofNat code else '?'
            let (tail, rem) ← parseJsonStr rest'
            return (c :: tail, rem)
          | _ => none
        else none
  | c :: rest =>
    if c.toNat < 0x20 then none
    else do
      let (tail, rem) ← parseJsonStr rest
      return (c :: tail, rem)

/-- Digits of a numeral to a natural number. -/
def digitsToNat (ds : Str) : Nat := ds.foldl (fun a c => a * 10 + (c.toNat - 48)) 0

/-- Parse a JSON number at the head of the input. -/
def parseJsonNum (s : Str) : Option (Rat × Str) :=
  let (sign, t) := match s with
    | '-' :: r => ((-1 : Rat), r)
    | r => ((1 : Rat), r)
  let intDigits := t.takeWhile Char.isDigit
  let t1 := t.dropWhile Char.isDigit
  if intDigits.isEmpty then none
  else
    let intPart : Rat := (digitsToNat intDigits : Nat)
    let (fracPart, t2) : Rat × Str :=
      match t1 with
      | '.' :: f =>
        let fds := f.takeWhile Char.isDigit
        ((digitsToNat fds : Rat) / (10 : Rat) ^ fds.length, f.dropWhile Char.isDigit)
      | _ => (0, t1)
    let base := sign * (intPart + fracPart)
    match t2 with
    | 'e' :: e | 'E' :: e =>
      let (esign, e1) : Int × Str := match e with
        | '-' :: r => (-1, r)
        | '+' :: r => (1, r)
        | r => (1, r)
      let eds := e1.takeWhile Char.isDigit
      if eds.isEmpty then none
      else
        let ev : Nat := digitsToNat eds
        let scaled := if esign = 1 then base * (10 : Rat) ^ ev else base / (10 : Rat) ^ ev
        some (scaled, e1.dropWhile Char.isDigit)
    | _ => some (base, t2)

mutual
/-- Parse one JSON value at the head of the (whitespace-skipped) input. -/
def parseJsonVal (fuel : Nat) (s : Str) : Option (PyVal × Str) :=
  match fuel with
  | 0 => none
  | fuel + 1 =>
    match skipWs s with
    | [] => none
    | '"' :: rest => do
      let (txt, rem) ← parseJsonStr rest
      return (.pstr txt, rem)
    | '{' :: rest =>
      (match skipWs rest with
       | '}' :: rem => some (.pdict [], rem)
       | _ => do
         let (d, rem) ← parseJsonMembers fuel rest
         return (.pdict d, rem))
    | '[' :: rest =>
      (match skipWs rest with
       | ']' :: rem => some (.plist [], rem)
       | _ => do
         let (xs, rem) ← parseJsonElems fuel rest
         return (.plist xs, rem))
    | 't' :: rest =>
      if ['r', 'u', 'e'].isPrefixOf rest then some (.pbool true, rest.drop 3) else none
    | 'f' :: rest =>
      if ['a', 'l', 's', 'e'].isPrefixOf rest then some (.pbool false, rest.drop 4) else none
    | 'n' :: rest =>
      if ['u', 'l', 'l'].isPrefixOf rest then some (.pnull, rest.drop 3) else none
    | t => do
      let (q, rem) ← parseJsonNum t
      return (.pnum q, rem)

/-- Parse the members of a JSON object (after the opening brace, at least one
member present). -/
def parseJsonMembers (fuel : Nat) (s : Str) : Option (List (Str × PyVal) × Str) :=
  match fuel with
  | 0 => none
  | fuel + 1 =>
    match skipWs s with
    | '"' :: rest => do
      let (key, rem1) ← parseJsonStr rest
      match skipWs rem1 with
      | ':' :: rem2 => do
        let (v, rem3) ← parseJsonVal fuel rem2
        match skipWs rem3 with
        | ',' :: rem4 => do
          let (d, rem5) ← parseJsonMembers fuel rem4
          return ((key, v) :: d, rem5)
        | '}' :: rem4 => return ([(key, v)], rem4)
        | _ => none
      | _ => none
    | _ => none

/-- Parse the elements of a JSON array (after the opening bracket, at least
one element present). -/
def parseJsonElems (fuel : Nat) (s : Str) : Option (List PyVal × Str) :=
  match fuel with
  | 0 => none
  | fuel + 1 => do
    let (v, rem) ← parseJsonVal fuel s
    match skipWs rem with
    | ',' :: rem1 => do
      let (xs, rem2) ← parseJsonElems fuel rem1
      return (v :: xs, rem2)
    | ']' :: rem1 => return ([v], rem1)
    | _ => none
end

/-- Model of `json.loads`: parse a whole input string as one JSON value,
`none` when the text is not valid JSON (Python raises `JSONDecodeError`). -/
def jsonLoads (s : Str) : Option PyVal :=
  match parseJsonVal (s.length + 1) s with
  | some (v, rem) => if (skipWs rem).isEmpty then some v else none
  | none => none

/-! ## `parse_email_response` (`src/app.py`) -/

/-- Result dict of the `except` fallback at the end of `parse_email_response`:
`format` tag `"error"`, original raw text preserved as best-effort body,
exception text recorded under `parse_error`. -/
def errorParseDict (rawContent : Str) (excMsg : Str) : List (Str × PyVal) :=
  [("subject_line".data, .pstr "Error parsing subject".data),
   ("email_body".data,
     if !rawContent.isEmpty then .pstr rawContent
     else .pstr "Error: No content available".data),
   ("personalization_score".data, .pnum 0),
   ("pain_points_addressed".data, .plist []),
   ("calendly_integration".data, .pstr []),
   ("format".data, .pstr "error".data),
   ("parse_error".data, .pstr excMsg)]

/-- Result dict built in the JSON branch of `parse_email_response` from a
successfully decoded JSON object, using `.get(key, default)` per field. -/
def jsonBranchDict (d : List (Str × PyVal)) : List (Str × PyVal) :=
  [("subject_line".data, dictGet d "subject_line".data (.pstr "No subject generated".data)),
   ("email_body".data, dictGet d "email_body".data (.pstr [])),
   ("personalization_score".data, dictGet d "personalization_score".data (.pnum 0)),
   ("pain_points_addressed".data, dictGet d "pain_points_addressed".data (.plist [])),
   ("calendly_integration".data, dictGet d "calendly_integration".data (.pstr [])),
   ("format".data, .pstr "json".data)]

/-- Initial dict of the key-value branch of `parse_email_response`. -/
def kvInitDict : List (Str × PyVal) :=
  [("subject_line".data, .pstr "No subject generated".data),
   ("email_body".data, .pstr []),
   ("personalization_score".data, .pnum 0),
   ("pain_points_addressed".data, .plist []),
   ("calendly_integration".data, .pstr []),
   ("format".data, .pstr "key_value".data)]

/-- Saving an accumulated key/value pair in the key-value branch: the
`if current_key == ...` cascade over the five recognised field names. -/
def kvSave (d : List (Str × PyVal)) (currKey : Str) (currVal : List Str) :
    List (Str × PyVal) :=
  let joined := joinSpace currVal
  if currKey = "subject_line".data then
    dictSet d "subject_line".data (.pstr (stripChars "\"".data joined))
  else if currKey = "email_body".data then
    dictSet d "email_body".data (.pstr (stripChars "\"".data joined))
  else if currKey = "personalization_score".data then
    match pyFloat (stripChars "\"".data joined) with
    | some q => dictSet d "personalization_score".data (.pnum q)
    | none => dictSet d "personalization_score".data (.pnum 0)
  else if currKey = "pain_points_addressed".data then
    let points := splitOnChar ',' (stripChars "[]\"".data joined)
    let cleaned := (points.filter (fun p => !(stripWs p).isEmpty)).map
      (fun p => stripChars "\"".data (stripWs p))
    dictSet d "pain_points_addressed".data (.plist (cleaned.map .pstr))
  else if currKey = "calendly_integration".data then
    dictSet d "calendly_integration".data (.pstr (stripChars "\"".data joined))
  else d

/-- Truthiness of the `current_key and current_value` guard in the key-value
branch (`current_key` is `None` or a possibly empty string; `current_value`
is a list). -/
def kvPairReady (currKey : Option Str) (currVal : List Str) : Bool :=
  (match currKey with | some k => !k.isEmpty | none => false) && !currVal.isEmpty

/-- One line of the key-value branch loop of `parse_email_response`. -/
def kvStep (st : List (Str × PyVal) × Option Str × List Str) (rawLine : Str) :
    List (Str × PyVal) × Option Str × List Str :=
  let (d, currKey, currVal) := st
  let line := stripWs rawLine
  if containsSub ":".data line && !(startsWith " ".data line) then
    let d' := if kvPairReady currKey currVal then
        kvSave d (match currKey with | some k => k | none => []) currVal
      else d
    let newKey := stripWs (splitFirst ':' line).1
    let newVal : List Str :=
      match (splitFirst ':' line).2 with
      | some post => [stripWs post]
      | none => []
    (d', some newKey, newVal)
  else
    match currKey with
    | some k => if !k.isEmpty then (d, currKey, currVal ++ [line]) else (d, currKey, currVal)
    | none => (d, currKey, currVal)

/-- The whole key-value branch of `parse_email_response`. -/
def kvBranchDict (content : Str) : List (Str × PyVal) :=
  let lines := splitOnChar '\n' content
  let (d, currKey, currVal) := lines.foldl kvStep (kvInitDict, none, [])
  if kvPairReady currKey currVal then
    kvSave d (match currKey with | some k => k | none => []) currVal
  else d

/-- Result dict of the raw-text branch of `parse_email_response`. -/
def rawBranchDict (content : Str) : List (Str × PyVal) :=
  [("subject_line".data, .pstr "No subject generated".data),
   ("email_body".data, .pstr content),
   ("personalization_score".data, .pnum 0),
   ("pain_points_addressed".data, .plist []),
   ("calendly_integration".data, .pstr []),
   ("format".data, .pstr "raw_text".data)]

/-- The escape-character clean-up applied to `parsed_data['email_body']` when
it is truthy: de-escape literal `\n`, `\"`, `\t` and strip whitespace.
Calling `.replace` on a non-string body raises, which the outer handler turns
into the error dict. -/
def postProcessBody (d : List (Str × PyVal)) (rawContent : Str) : List (Str × PyVal) :=
  let body := dictGet d "email_body".data .pnull
  if pyTruthy body then
    match body with
    | .pstr s =>
      let s1 := replaceSub "\\n".data "\n".data s
      let s2 := replaceSub "\\\"".data "\"".data s1
      let s3 := replaceSub "\\t".data "\t".data s2
      dictSet d "email_body".data (.pstr (stripWs s3))
    | _ => errorParseDict rawContent "AttributeError: replace".data
  else d

/-- The code-fence clean-up at the top of the JSON branch of
`parse_email_response`: a ```json prefix triggers `.replace` of both fence
markers; the plain ``` arm mirrors the source's `elif`, which is unreachable
because the branch guard only admits content starting with `{` or
```json. -/
def fenceStripped (content : Str) : Str :=
  if startsWith "```json".data content then
    stripWs (replaceSub "```".data [] (replaceSub "```json".data [] content))
  else if startsWith "```".data content then
    stripWs (replaceSub "```".data [] content)
  else content

/-- The JSON branch of `parse_email_response`: strip fences, `json.loads`,
fill the result from the decoded object with per-field defaults; a parse
failure or a non-dict payload (whose `.get` raises) falls to the `except`
handler. -/
def jsonBranchResult (content rawContent : Str) : List (Str × PyVal) :=
  match jsonLoads (fenceStripped content) with
  | some (.pdict d) => postProcessBody (jsonBranchDict d) rawContent
  | some _ => errorParseDict rawContent "AttributeError: get".data
  | none => errorParseDict rawContent "JSONDecodeError".data

/-- Model of `parse_email_response` (`src/app.py`).  The input is the
`email_response.content` field (`none` models a missing response object or a
`None` content).  Falsy content returns `None`; otherwise the three-tier
parse (JSON, key-value, raw text) runs with the final `except` handler
modelled by `errorParseDict`. -/
def parseEmailResponse (content? : Option Str) : Option (List (Str × PyVal)) :=
  match content? with
  | none => none
  | some rawContent =>
    if rawContent.isEmpty then none
    else
      let content := stripWs rawContent
      if startsWith "\x7b".data content || startsWith "```json".data content then
        some (jsonBranchResult content rawContent)
      else if containsSub "subject_line:".data content ||
          containsSub "email_body:".data content then
        some (postProcessBody (kvBranchDict content) rawContent)
      else
        some (postProcessBody (rawBranchDict content) rawContent)

/-! ## Lead scoring (`src/ai_engine.py`, `LeadScoringEngine`) -/

/-- Lead record as consumed by the AI engine (`integrations.LeadData`). -/
structure LeadDataR where
  name : Str
  email : Str
  company : Str
  job_title : Str
  phone : Option Str := none
  linkedin_url : Option Str := none
  company_description : Option Str := none
  pain_points : List Str := []

/-- Lead scoring result (`ai_engine.LeadScore`). -/
structure LeadScoreR where
  lead_id : Str
  score : Rat
  factors : List (Str × Rat)
  confidence : Rat
  recommendations : List Str

/-- Decision-maker keywords used by `_extract_features` (seven entries). -/
def decisionMakerTitles7 : List Str :=
  ["ceo".data, "cto".data, "cfo".data, "vp".data, "director".data,
   "manager".data, "head".data]

/-- Decision-maker keywords used by `_fallback_scoring` (six entries, without
`head`). -/
def decisionMakerTitles6 : List Str :=
  ["ceo".data, "cto".data, "cfo".data, "vp".data, "director".data,
   "manager".data]

/-- Industry keyword groups of `_extract_features`, in iteration order. -/
def industryKeywordGroups : List (List Str) :=
  [["software".data, "technology".data, "saas".data, "startup".data, "digital".data],
   ["banking".data, "financial".data, "insurance".data, "investment".data],
   ["health".data, "medical".data, "pharmaceutical".data, "hospital".data],
   ["ecommerce".data, "retail".data, "consumer".data, "shopping".data]]

/-- Model of `LeadScoringEngine._extract_features`: the 6-dimensional feature
vector (company size, job title, industry, pain points, engagement, response
rate). -/
def extractFeatures (lead : LeadDataR) (engagement : Option Rat) : List Rat :=
  let desc := match lead.company_description with | some d => d | none => []
  let companySizeScore := pymin ((desc.length : Rat) / 100) 1
  let jobTitleLower := lowerStr lead.job_title
  let jobTitleScore :=
    ((decisionMakerTitles7.countP (fun t => containsSub t jobTitleLower) : Rat)) / 7
  let descLower := lowerStr desc
  let industryScore : Rat :=
    if industryKeywordGroups.any (fun g => g.any (fun k => containsSub k descLower))
    then 1 else 0
  let painPointsScore : Rat :=
    if !lead.pain_points.isEmpty then pymin ((lead.pain_points.length : Rat) / 5) 1 else 0
  let engagementScore := match engagement with | some e => e | none => 0
  [companySizeScore, jobTitleScore, industryScore, painPointsScore,
   engagementScore, (1 : Rat) / 2]

/-- Model of `LeadScoringEngine._fallback_scoring`: base 0.5, +0.2 for a
decision-maker job title, +0.1 for non-empty pain points, +0.1 for a company
description longer than 50 characters, clamped at 1.0. -/
def fallbackScoring (lead : LeadDataR) : Rat :=
  let s0 : Rat := 1/2
  let s1 := if decisionMakerTitles6.any (fun t => containsSub t (lowerStr lead.job_title))
    then s0 + 2/10 else s0
  let s2 := if !lead.pain_points.isEmpty then s1 + 1/10 else s1
  let s3 := match lead.company_description with
    | some d => if d.length > 50 then s2 + 1/10 else s2
    | none => s2
  pymin s3 1

/-- Model of `LeadScoringEngine._calculate_confidence` over the feature
vector. -/
def calcConfidence (features : List Rat) : Rat :=
  let nonZero := (features.countP (fun f => f ≠ 0) : Rat)
  let c0 := pymin (nonZero / (features.length : Rat)) 1
  let c1 := if features.getD 1 0 > 1/2 then c0 + 1/10 else c0
  let c2 := if features.getD 3 0 > 1/2 then c1 + 1/10 else c1
  pymin c2 1

/-- Model of `LeadScoringEngine._generate_recommendations`. -/
def genRecommendations (score : Rat) (features : List Rat) : List Str :=
  let base :=
    if score < 3/10 then
      ["Low priority lead - consider nurturing campaign".data,
       "Focus on building awareness before sales pitch".data]
    else if score < 7/10 then
      ["Medium priority - standard outreach sequence".data,
       "Monitor engagement and adjust approach".data]
    else
      ["High priority lead - immediate follow-up recommended".data,
       "Consider personalized demo or meeting request".data]
  let r1 := if features.getD 1 0 < 3/10 then
      base ++ ["Target higher-level decision makers in organization".data] else base
  let r2 := if features.getD 3 0 < 3/10 then
      r1 ++ ["Research company to identify potential pain points".data] else r1
  if features.getD 4 0 < 3/10 then
      r2 ++ ["Improve email personalization and timing".data] else r2

/-- The scaler/classifier pair of the scoring engine.  `scalerFitted` and
`modelFitted` record whether the persisted, trained artifacts were loaded
(a freshly created `StandardScaler`/`RandomForestClassifier` raises
`NotFittedError` when used); `modelPresent` is `self.model is not None`;
`scale` and `predictProb` abstract the fitted artifacts' numeric behaviour. -/
structure ScoringModelR where
  scalerFitted : Bool
  modelPresent : Bool
  modelFitted : Bool
  scale : List Rat → List Rat
  predictProb : List Rat → Rat

/-- The default `LeadScore` returned by `score_lead`'s `except` handler. -/
def errorLeadScore (leadId : Str) : LeadScoreR :=
  { lead_id := leadId, score := 1/2, factors := [], confidence := 0,
    recommendations := ["Unable to score lead due to error".data] }

/-- Model of `LeadScoringEngine.score_lead`.  Feature extraction never fails;
`self.scaler.transform` raises `NotFittedError` for an unfitted scaler and
`predict_proba` for an unfitted classifier, both caught by the outer handler
which returns `errorLeadScore`; the `_fallback_scoring` branch is entered
only when `self.model is None`. -/
def scoreLeadML (m : ScoringModelR) (lead : LeadDataR) (engagement : Option Rat)
    (leadId : Str) : LeadScoreR :=
  let features := extractFeatures lead engagement
  if !m.scalerFitted then errorLeadScore leadId
  else
    let scaled := m.scale features
    if m.modelPresent ∧ !m.modelFitted then errorLeadScore leadId
    else
      let score := if m.modelPresent then m.predictProb scaled else fallbackScoring lead
      { lead_id := leadId
        score := score
        factors :=
          [("company_size".data, features.getD 0 0), ("job_title".data, features.getD 1 0),
           ("industry".data, features.getD 2 0), ("pain_points".data, features.getD 3 0),
           ("engagement".data, features.getD 4 0), ("response_rate".data, features.getD 5 0)]
        confidence := calcConfidence features
        recommendations := genRecommendations score features }

/-! ## Blended scoring (`src/ai_engine.py`, `AIEngine.score_lead`) -/

/-- Result of `AIEngine._enhance_lead_scoring_with_ai`. -/
structure EnhanceResultR where
  ai_score : Rat
  decision_authority : Rat
  company_relevance : Rat
  recommendations : List Str

/-- The `except` fallback of `_enhance_lead_scoring_with_ai`. -/
def enhanceFallback : EnhanceResultR :=
  { ai_score := 1/2, decision_authority := 1/2, company_relevance := 1/2,
    recommendations := ["AI analysis failed, using fallback scores".data] }

/-- `float`-compatible reading of a Python value used in arithmetic
(`decision_score / 100`): numbers divide, booleans count as 0/1, anything
else raises `TypeError`. -/
def pyNumOfVal : PyVal → Option Rat
  | .pnum q => some q
  | .pbool b => some (if b then 1 else 0)
  | _ => none

/-- Model of `AIEngine._enhance_lead_scoring_with_ai` given the (parsed or
fallback) job-title analysis dict: `decision_authority = decision_score/100`,
`company_relevance = 0.7` placeholder, `ai_score = 0.4·authority +
0.3·relevance + 0.3`; a non-numeric `decision_score` raises and yields the
fallback result. -/
def enhanceLeadScoringWithAI (jobAnalysis : List (Str × PyVal)) : EnhanceResultR :=
  match pyNumOfVal (dictGet jobAnalysis "decision_score".data (.pnum 50)) with
  | none => enhanceFallback
  | some ds =>
    let decisionAuthority := ds / 100
    let companyRelevance : Rat := 7/10
    let aiScore := decisionAuthority * (4/10) + companyRelevance * (3/10) + 3/10
    { ai_score := aiScore, decision_authority := decisionAuthority,
      company_relevance := companyRelevance,
      recommendations :=
        ["Decision authority noted".data, "Company relevance noted".data,
         "Consider targeting higher-level decision makers if score is low".data] }

/-- Model of `_fallback_job_analysis`: the `"Unknown"` sentinel dict with all
scores 50. -/
def fallbackJobAnalysis : List (Str × PyVal) :=
  [("seniority_level".data, .pstr "Unknown".data),
   ("seniority_score".data, .pnum 50),
   ("decision_authority".data, .pstr "Unknown".data),
   ("decision_score".data, .pnum 50),
   ("likely_pain_points".data, .plist [.pstr "General business challenges".data]),
   ("industry_context".data, .pstr "General business context".data),
   ("personalization_opportunities".data, .plist [.pstr "Standard personalization".data]),
   ("influence_level".data, .pstr "Unknown".data),
   ("overall_score".data, .pnum 50),
   ("reasoning".data, .pstr "Fallback analysis due to AI failure".data)]

/-- Hot/Warm/Cold classification of `AIEngine.score_lead`: classification and
priority strings from the final blended score. -/
def classifyScore (finalScore : Rat) : Str × Str :=
  if finalScore ≥ 8/10 then ("Hot".data, "Immediate follow-up".data)
  else if finalScore ≥ 6/10 then ("Warm".data, "Standard sequence".data)
  else ("Cold".data, "Nurturing campaign".data)

/-- The blended final score of `AIEngine.score_lead`:
`ml_score·0.6 + ai_score·0.4`. -/
def blendScore (mlScore aiScore : Rat) : Rat := mlScore * (6/10) + aiScore * (4/10)

/-- Model of `AIEngine.score_lead` after the ML stage and the AI-enhancement
stage have produced their results: blend, classify, and merge factors and
recommendations. -/
def aiEngineScoreLead (mlScore : LeadScoreR) (enh : EnhanceResultR) : LeadScoreR :=
  let finalScore := blendScore mlScore.score enh.ai_score
  let (classification, priority) := classifyScore finalScore
  { lead_id := mlScore.lead_id
    score := finalScore
    factors := mlScore.factors ++
      [("ai_analysis_score".data, enh.ai_score),
       ("decision_authority".data, enh.decision_authority),
       ("company_relevance".data, enh.company_relevance)]
    confidence := mlScore.confidence
    recommendations :=
      ("Classification: ".data ++ classification) ::
      ("Priority: ".data ++ priority) ::
      (enh.recommendations ++ mlScore.recommendations) }

/-! ## Email personalization engine (`src/ai_engine.py`,
`EmailPersonalizationEngine`): request cache and rate limiting -/

/-- AI generation result (`integrations.AIResponse`). -/
structure AIResponseR where
  success : Bool
  content : Option Str := none
  error_message : Option Str := none

/-- Personalization research bundle (`ai_engine.PersonalizationData`),
without the embedded lead copy. -/
structure PersonalizationDataR where
  company_research : List (Str × PyVal)
  industry_insights : List (Str × PyVal)
  pain_point_analysis : List (Str × PyVal)
  personalization_score : Rat

/-- Model of `_research_company`: a fixed placeholder dict. -/
def researchCompany : List (Str × PyVal) :=
  [("size".data, .pstr "unknown".data),
   ("industry".data, .pstr "unknown".data),
   ("recent_news".data, .plist []),
   ("key_metrics".data, .pdict [])]

/-- Industry keyword groups of `_get_industry_insights`, in iteration
order. -/
def insightIndustryKeywords : List (Str × List Str) :=
  [("technology".data, ["software".data, "saas".data, "tech".data, "digital".data, "platform".data]),
   ("finance".data, ["financial".data, "banking".data, "investment".data, "insurance".data]),
   ("healthcare".data, ["health".data, "medical".data, "pharmaceutical".data, "hospital".data]),
   ("retail".data, ["ecommerce".data, "retail".data, "consumer".data, "shopping".data])]

/-- Model of `_get_industry_trends`: a constant placeholder list. -/
def industryTrends : List PyVal :=
  [.pstr "Digital transformation".data, .pstr "Remote work adoption".data,
   .pstr "AI integration".data]

/-- Model of `_get_industry_insights`. -/
def getIndustryInsights (desc : Option Str) : List (Str × PyVal) :=
  match desc with
  | none => []
  | some d =>
    if d.isEmpty then []
    else
      let lower := lowerStr d
      let detected := (insightIndustryKeywords.filter
        (fun g => g.2.any (fun k => containsSub k lower))).map (fun g => PyVal.pstr g.1)
      [("detected_industries".data, .plist detected),
       ("trends".data, .plist industryTrends)]

/-- Pain-point categories of `_analyze_pain_points`, in iteration order. -/
def painPointCategories : List (Str × List Str) :=
  [("efficiency".data, ["slow".data, "manual".data, "time-consuming".data, "inefficient".data]),
   ("cost".data, ["expensive".data, "costly".data, "budget".data, "expensive".data]),
   ("technology".data, ["outdated".data, "integration".data, "compatibility".data, "technical".data]),
   ("scalability".data, ["growth".data, "scale".data, "capacity".data, "performance".data])]

/-- Category of a single pain point: the first keyword-matching category,
else `other`. -/
def categorizePoint (point : Str) : Str :=
  let lower := lowerStr point
  match painPointCategories.find? (fun g => g.2.any (fun k => containsSub k lower)) with
  | some g => g.1
  | none => "other".data

/-- Append a pain point under its category, preserving first-seen category
order (model of the `categorized_points` dict build-up). -/
def addCategorized (acc : List (Str × List Str)) (cat : Str) (point : Str) :
    List (Str × List Str) :=
  match acc with
  | [] => [(cat, [point])]
  | (c, ps) :: rest =>
    if c = cat then (c, ps ++ [point]) :: rest
    else (c, ps) :: addCategorized rest cat point

/-- First key of maximal bucket length (Python's `max(d.keys(), key=...)`
returns the first maximum in iteration order). -/
def primaryCategory (cats : List (Str × List Str)) : Str :=
  match cats with
  | [] => "unknown".data
  | (c, ps) :: rest =>
    let better := (primaryCategory rest, (cats.filter
      (fun g => g.1 = primaryCategory rest)).foldl (fun a g => max a g.2.length) 0)
    if ps.length ≥ better.2 then c else better.1

/-- Model of `_analyze_pain_points`. -/
def analyzePainPoints (points : List Str) : List (Str × PyVal) :=
  if points.isEmpty then []
  else
    let cats := points.foldl (fun acc p => addCategorized acc (categorizePoint p) p) []
    [("categories".data, .pdict (cats.map (fun g => (g.1, PyVal.plist (g.2.map .pstr))))),
     ("primary_category".data, .pstr (primaryCategory cats))]

/-- Model of `_calculate_personalization_score`: base 0.5 plus +0.1 bonuses,
clamped at 1.  Note `d.get(key)` defaults to `None`, and `None != 'unknown'`
is true in Python, so an empty pain-point analysis still earns the
`primary_category` bonus. -/
def calcPersonalizationScore (cr ii ppa : List (Str × PyVal)) : Rat :=
  let isStrVal : PyVal → Str → Bool := fun v s =>
    match v with | .pstr t => t = s | _ => false
  let s0 : Rat := 1/2
  let s1 := if !isStrVal (dictGet cr "size".data .pnull) "unknown".data then s0 + 1/10 else s0
  let s2 := if !isStrVal (dictGet cr "industry".data .pnull) "unknown".data then s1 + 1/10 else s1
  let s3 := if pyTruthy (dictGet ii "detected_industries".data .pnull) then s2 + 1/10 else s2
  let s4 := if pyTruthy (dictGet ii "trends".data .pnull) then s3 + 1/10 else s3
  let s5 := if pyTruthy (dictGet ppa "categories".data .pnull) then s4 + 1/10 else s4
  let s6 := if !isStrVal (dictGet ppa "primary_category".data .pnull) "unknown".data then s5 + 1/10 else s5
  pymin s6 1

/-- Model of `_get_personalization_data` (all synchronous/local). -/
def getPersonalizationData (lead : LeadDataR) : PersonalizationDataR :=
  let cr := researchCompany
  let ii := getIndustryInsights lead.company_description
  let ppa := analyzePainPoints lead.pain_points
  { company_research := cr, industry_insights := ii, pain_point_analysis := ppa,
    personalization_score := calcPersonalizationScore cr ii ppa }

/-- Lexicographic comparison on character lists (used to model
`sorted(context.items())`). -/
def strLe : Str → Str → Bool
  | [], _ => true
  | _ :: _, [] => false
  | a :: as', b :: bs' =>
    if a.toNat < b.toNat then true
    else if a.toNat = b.toNat then strLe as' bs'
    else false

/-- Model of `_get_cache_key`: a deterministic serialization of
`(email, job_title, company, email_type, sorted context)` standing in for the
MD5 digest of the corresponding JSON dump. -/
def mkCacheKey (lead : LeadDataR) (emailType : Str)
    (context : Option (List (Str × Str))) : Str :=
  let ctxStr : Str :=
    match context with
    | none => "0".data
    | some items =>
      if items.isEmpty then "0".data
      else
        (items.mergeSort (fun a b => strLe (a.1 ++ a.2) (b.1 ++ b.2))).foldl
          (fun acc kv => acc ++ kv.1 ++ "=".data ++ kv.2 ++ ";".data) []
  lead.email ++ "|".data ++ lead.job_title ++ "|".data ++ lead.company ++
    "|".data ++ emailType ++ "|".data ++ ctxStr

/-- Lookup in an association list keyed by `Str`. -/
def assocFind {α : Type} (l : List (Str × α)) (k : Str) : Option α :=
  match l with
  | [] => none
  | (k', v) :: rest => if k' = k then some v else assocFind rest k

/-- Overwrite-or-insert in an association list keyed by `Str` (Python dict
assignment). -/
def assocSet {α : Type} (l : List (Str × α)) (k : Str) (v : α) : List (Str × α) :=
  match l with
  | [] => [(k, v)]
  | (k', v') :: rest => if k' = k then (k, v) :: rest else (k', v') :: assocSet rest k v

/-- State of the personalization engine: the two caches (entries carry their
insertion timestamp in seconds), rate-limit bookkeeping, and an
instrumentation counter of generative calls (the per-test call counter of
§8 of the spec). -/
structure EngineStateR where
  personalizationCache : List (Str × PersonalizationDataR × Nat)
  requestCache : List (Str × AIResponseR × Nat)
  lastApiCall : Nat
  dailyApiCalls : Nat
  maxDailyCalls : Nat
  genCount : Nat

/-- Request-cache TTL (30 minutes). -/
def requestCacheTtl : Nat := 1800

/-- Personalization-cache TTL (1 hour). -/
def personalizationCacheTtl : Nat := 3600

/-- Model of `_get_cached_response`: a hit requires a live entry
(age < TTL). -/
def getCachedResponse (st : EngineStateR) (key : Str) (now : Nat) :
    Option AIResponseR :=
  match assocFind st.requestCache key with
  | some (r, ts) => if now - ts < requestCacheTtl then some r else none
  | none => none

/-- Model of `_cache_ai_response`. -/
def cacheAiResponse (st : EngineStateR) (key : Str) (r : AIResponseR) (now : Nat) :
    EngineStateR :=
  { st with requestCache := assocSet st.requestCache key (r, now) }

/-- Model of `_cache_personalization_data`: store under the lead email, then
sweep entries older than the TTL. -/
def cachePersonalizationData (st : EngineStateR) (email : Str)
    (data : PersonalizationDataR) (now : Nat) : EngineStateR :=
  let updated := assocSet st.personalizationCache email (data, now)
  { st with personalizationCache :=
      updated.filter (fun kv => !(now - kv.2.2 > personalizationCacheTtl)) }

/-- The descriptive daily-limit error text raised by `_check_rate_limits`. -/
def rateLimitMsg (maxCalls : Nat) : Str :=
  "Daily API call limit reached (".data ++ (Nat.repr maxCalls).data ++
    "). Please try again tomorrow.".data

/-- Model of `_check_rate_limits`: raise the daily-limit error when the daily
counter has reached the cap, otherwise (after an inter-call delay that does
not change the modelled state beyond `lastApiCall`) record the call time. -/
def checkRateLimits (st : EngineStateR) (now : Nat) : Except Str EngineStateR :=
  if st.dailyApiCalls ≥ st.maxDailyCalls then .error (rateLimitMsg st.maxDailyCalls)
  else .ok { st with lastApiCall := now }

/-- Model of `personalize_email`.  `gen` is the generative-service oracle,
indexed by the running count of generative calls; the prompt construction is
pure string building with no effect on the modelled state.  A live cache hit
returns immediately; the daily-limit exception is caught by the outer
handler, which returns a failed `AIResponse` carrying the message; the daily
counter increments after every generative call; only successful responses
are cached. -/
def personalizeEmail (gen : Nat → AIResponseR) (st : EngineStateR)
    (lead : LeadDataR) (emailType : Str) (context : Option (List (Str × Str)))
    (now : Nat) : EngineStateR × AIResponseR :=
  let key := mkCacheKey lead emailType context
  match getCachedResponse st key now with
  | some r => (st, r)
  | none =>
    let pd := getPersonalizationData lead
    match checkRateLimits st now with
    | .error msg => (st, { success := false, error_message := some msg })
    | .ok st1 =>
      let response := gen st1.genCount
      let st2 := { st1 with
        genCount := st1.genCount + 1
        dailyApiCalls := st1.dailyApiCalls + 1 }
      if response.success then
        let st3 := cachePersonalizationData st2 lead.email pd now
        (cacheAiResponse st3 key response now, response)
      else (st2, response)

/-! ## Response analysis (`src/ai_engine.py`, `ResponseAnalysisEngine`) -/

/-- Email analysis result (`ai_engine.EmailAnalysis`); loosely typed fields
coming straight out of JSON are kept as `PyVal`. -/
structure EmailAnalysisR where
  email_id : Str
  sentiment : PyVal
  intent : PyVal
  key_points : PyVal
  next_action : PyVal
  confidence : Rat
  urgency : Str
  engagement_score : Rat

/-- Equality of a `PyVal` with a string literal (Python `==` against a
string never raises; non-strings are simply unequal). -/
def pyEqStr (v : PyVal) (s : Str) : Bool :=
  match v with | .pstr t => t = s | _ => false

/-- Urgency keywords of `_calculate_urgency`. -/
def urgencyKeywords : List Str :=
  ["urgent".data, "asap".data, "immediate".data, "critical".data, "emergency".data]

/-- Key-point contribution of `_calculate_urgency`: iterating `key_points`
raises for non-iterable values (caught inside the helper, which then returns
`low`); iterating a string visits single characters (matching no multi-char
keyword) and iterating a dict visits its string keys. -/
def keyPointBonus : PyVal → Option Nat
  | .plist xs =>
    if xs.all (fun x => match x with | .pstr _ => true | _ => false) then
      some (2 * xs.countP (fun x =>
        match x with
        | .pstr p => urgencyKeywords.any (fun k => containsSub k (lowerStr p))
        | _ => false))
    else none
  | .pstr _ => some 0
  | .pdict d =>
    some (2 * d.countP (fun kv => urgencyKeywords.any (fun k => containsSub k (lowerStr kv.1))))
  | _ => none

/-- Model of `_calculate_urgency`: the additive urgency score with thresholds
5 (`high`) and 3 (`medium`); any exception inside yields `low`. -/
def calcUrgency (sentiment intent keyPoints : PyVal) : Str :=
  match keyPointBonus keyPoints with
  | none => "low".data
  | some kb =>
    let s0 : Nat := 0
    let s1 := if pyEqStr sentiment "positive".data then s0 + 2
      else if pyEqStr sentiment "negative".data then s0 + 1 else s0
    let s2 := if pyEqStr intent "interested".data then s1 + 3
      else if pyEqStr intent "needs_more_info".data then s1 + 2 else s1
    let s3 := s2 + kb
    if s3 ≥ 5 then "high".data else if s3 ≥ 3 then "medium".data else "low".data

/-- Model of `_calculate_engagement_score`: sentiment, intent and confidence
contributions, clamped at 1. -/
def calcEngagementScore (sentiment intent : PyVal) (confidence : Rat) : Rat :=
  let s0 : Rat := 0
  let s1 := if pyEqStr sentiment "positive".data then s0 + 4/10
    else if pyEqStr sentiment "neutral".data then s0 + 2/10
    else if pyEqStr sentiment "negative".data then s0 + 1/10 else s0
  let s2 := if pyEqStr intent "interested".data then s1 + 4/10
    else if pyEqStr intent "needs_more_info".data then s1 + 3/10
    else if pyEqStr intent "not_interested".data then s1 + 0 else s1
  pymin (s2 + confidence * (2/10)) 1

/-- Positive keyword list of `_fallback_analysis`. -/
def positiveWords : List Str :=
  ["interested".data, "yes".data, "great".data, "good".data, "like".data, "love".data]

/-- Negative keyword list of `_fallback_analysis`. -/
def negativeWords : List Str :=
  ["not interested".data, "no".data, "bad".data, "dislike".data, "unfortunately".data]

/-- Model of `_fallback_analysis`: the keyword-count heuristic with fixed
confidence 0.3, urgency `low` and engagement 0.5. -/
def fallbackAnalysis (emailContent : Str) : EmailAnalysisR :=
  let lower := lowerStr emailContent
  let pos := positiveWords.countP (fun w => containsSub w lower)
  let neg := negativeWords.countP (fun w => containsSub w lower)
  let (sentiment, intent) : Str × Str :=
    if pos > neg then ("positive".data, "interested".data)
    else if neg > pos then ("negative".data, "not_interested".data)
    else ("neutral".data, "needs_more_info".data)
  { email_id := "unknown".data
    sentiment := .pstr sentiment
    intent := .pstr intent
    key_points := .plist [.pstr "Fallback analysis used".data]
    next_action := .pstr "manual_review".data
    confidence := 3/10
    urgency := "low".data
    engagement_score := 1/2 }

/-- The `EmailAnalysis` returned when the generative call reports failure
(`analysis_response.success` false): all-`unknown` fields with confidence 0
and engagement 0. -/
def unknownAnalysis : EmailAnalysisR :=
  { email_id := "unknown".data
    sentiment := .pstr "unknown".data
    intent := .pstr "unknown".data
    key_points := .plist []
    next_action := .pstr "manual_review".data
    confidence := 0
    urgency := "low".data
    engagement_score := 0 }

/-- `float(x)` coercion used on `confidence_score`: numbers and booleans
convert, numeric strings parse, anything else raises. -/
def pyFloatOfVal : PyVal → Option Rat
  | .pnum q => some q
  | .pbool b => some (if b then 1 else 0)
  | .pstr s => pyFloat s
  | _ => none

/-- Outcome of the `gemini_api.analyze_response` call as observed by
`analyze_response`: the coroutine either raises or returns an
`AIResponse`. -/
inductive GenOutcome where
  | raised (msg : Str)
  | returned (r : AIResponseR)

/-- Model of `ResponseAnalysisEngine.analyze_response`.  An unsuccessful
response returns `unknownAnalysis`; a JSON parse failure (or any other
exception inside either `try`, e.g. `.get` on a non-dict payload or a
`float()` failure on `confidence_score`, or a raising generative call) ends
in `_fallback_analysis`; otherwise the parsed fields and the derived urgency
and engagement are assembled. -/
def analyzeResponse (outcome : GenOutcome) (emailContent : Str) : EmailAnalysisR :=
  match outcome with
  | .raised _ => fallbackAnalysis emailContent
  | .returned r =>
    if !r.success then unknownAnalysis
    else
      match r.content with
      | none => fallbackAnalysis emailContent
      | some c =>
        match jsonLoads c with
        | some (.pdict d) =>
          let sentiment := dictGet d "sentiment".data (.pstr "neutral".data)
          let intent := dictGet d "intent".data (.pstr "unknown".data)
          let keyPoints := dictGet d "key_points".data (.plist [])
          let nextAction := dictGet d "recommended_next_action".data (.pstr "manual_review".data)
          match pyFloatOfVal (dictGet d "confidence_score".data (.pnum 0)) with
          | none => fallbackAnalysis emailContent
          | some cv =>
            let confidence := cv / 100
            { email_id := "unknown".data
              sentiment := sentiment
              intent := intent
              key_points := keyPoints
              next_action := nextAction
              confidence := confidence
              urgency := calcUrgency sentiment intent keyPoints
              engagement_score := calcEngagementScore sentiment intent confidence }
        | some _ => fallbackAnalysis emailContent
        | none => fallbackAnalysis emailContent

/-! ## Campaign orchestration (`src/automation.py`, `CampaignOrchestrator`) -/

/-- Lead record (`database.Lead`), with timestamps in seconds. -/
structure LeadRecR where
  lead_id : Str
  name : Str
  email : Str
  company : Str
  job_title : Str
  company_description : Option Str := none
  pain_points : List Str := []
  lead_score : Rat := 0
  status : Str := "new".data
  last_contacted : Option Nat := none
  campaign_id : Option Str := none

/-- Campaign record (the fields `_should_process_lead` consults). -/
structure CampaignRecR where
  campaign_id : Str

/-- The configuration the orchestrator reads (`config.py`):
`follow_up_delay_hours` (email config, default 48) and
`lead_score_threshold` (automation config, default 0.7). -/
structure OrchestratorCfgR where
  follow_up_delay_hours : Nat := 48
  lead_score_threshold : Rat := 7/10

/-- Model of `_should_process_lead`: skip when the lead is bound to a
different campaign, when `(now - last_contacted).days` is less than
`follow_up_delay_hours / 24`, or when the score is below the threshold.
Python's truthiness makes `None` and the empty string count as unbound. -/
def shouldProcessLead (cfg : OrchestratorCfgR) (now : Nat) (lead : LeadRecR)
    (campaign : CampaignRecR) : Bool :=
  let boundElsewhere :=
    match lead.campaign_id with
    | some cid => !cid.isEmpty && cid ≠ campaign.campaign_id
    | none => false
  if boundElsewhere then false
  else
    let contactedRecently : Bool :=
      match lead.last_contacted with
      | some t => decide ((((now - t) / 86400 : Nat) : Rat) < (cfg.follow_up_delay_hours : Rat) / 24)
      | none => false
    if contactedRecently then false
    else if lead.lead_score < cfg.lead_score_threshold then false
    else true

/-- The eligibility gate as the claim words it: skip iff bound to a
different campaign, or contacted more recently than the configured follow-up
delay (in real elapsed time), or score below the threshold. -/
def specShouldProcessLead (cfg : OrchestratorCfgR) (now : Nat) (lead : LeadRecR)
    (campaign : CampaignRecR) : Bool :=
  let boundElsewhere :=
    match lead.campaign_id with
    | some cid => !cid.isEmpty && cid ≠ campaign.campaign_id
    | none => false
  let contactedRecently :=
    match lead.last_contacted with
    | some t => now - t < cfg.follow_up_delay_hours * 3600
    | none => false
  !(boundElsewhere || contactedRecently || lead.lead_score < cfg.lead_score_threshold)

/-- Observable effects accumulated while a batch is processed: audit email
records created, `update_lead_status` calls issued, and the job's
`emails_sent` progress counter. -/
structure BatchEffectsR where
  emailsRecorded : List Str := []
  statusUpdates : List Str := []
  emailsSent : Nat := 0

/-- Model of `_process_individual_lead`: generation failure logs and
returns; send success creates the email record and updates the lead; send
failure logs only.  All exceptions are caught inside. -/
def processIndividualLead (genOk sendOk : LeadRecR → Bool) (eff : BatchEffectsR)
    (lead : LeadRecR) : BatchEffectsR :=
  if !genOk lead then eff
  else if sendOk lead then
    { eff with
      emailsRecorded := eff.emailsRecorded ++ [lead.lead_id]
      statusUpdates := eff.statusUpdates ++ [lead.lead_id] }
  else eff

/-- Model of the loop body of `_process_lead_batch`: the eligibility gate,
then `_process_individual_lead`, then — unconditionally — the
`update_lead_status(..., "contacted", ...)` call and the
`job.progress["emails_sent"] += 1` increment. -/
def processBatchStep (cfg : OrchestratorCfgR) (now : Nat)
    (genOk sendOk : LeadRecR → Bool) (campaign : CampaignRecR)
    (eff : BatchEffectsR) (lead : LeadRecR) : BatchEffectsR :=
  if !shouldProcessLead cfg now lead campaign then eff
  else
    let eff1 := processIndividualLead genOk sendOk eff lead
    { eff1 with
      statusUpdates := eff1.statusUpdates ++ [lead.lead_id]
      emailsSent := eff1.emailsSent + 1 }

/-- Model of `_process_lead_batch` over a batch of leads. -/
def processLeadBatch (cfg : OrchestratorCfgR) (now : Nat)
    (genOk sendOk : LeadRecR → Bool) (campaign : CampaignRecR)
    (eff : BatchEffectsR) (leads : List LeadRecR) : BatchEffectsR :=
  leads.foldl (processBatchStep cfg now genOk sendOk campaign) eff

/-! ## Campaign job lifecycle (`src/automation.py`): pause / resume -/

/-- Program point of the `_execute_campaign_job` batch loop: not yet
dequeued, about to process the next batch, at the post-batch pause check,
inside the inter-batch `asyncio.sleep`, or returned. -/
inductive ExecPhase where
  | notStarted
  | atBatch
  | atCheck
  | atSleep
  | exited
deriving DecidableEq

/-- State of one `CampaignJob` together with its executor task.
`pausedBatches` instruments how many batches were processed while the job
status was `"paused"`. -/
structure JobStateR where
  status : Str
  enqueued : Bool
  batchesDone : Nat
  nBatches : Nat
  phase : ExecPhase
  pausedBatches : Nat

/-- Events that can interleave at the await points of the cooperative
scheduler: the worker dequeues and starts the job; the executor processes
one batch, runs the post-batch pause check, or finishes its inter-batch
sleep; `pause_campaign` / `resume_campaign` run concurrently. -/
inductive JobEvent where
  | startExec
  | processBatch
  | pauseCheck
  | sleepEnd
  | pauseReq
  | resumeReq
deriving DecidableEq

/-- Transition function of the job/executor system, read off
`_process_job_queue`, `_execute_campaign_job`, `pause_campaign` and
`resume_campaign`.  The loop's pause check runs after a batch, before the
inter-batch sleep; `pause_campaign` flips only `"running"` jobs;
`resume_campaign` flips `"paused"` jobs back to `"pending"` and re-enqueues
them. -/
def jobStep (s : JobStateR) (e : JobEvent) : JobStateR :=
  match e with
  | .startExec =>
    if s.status = "pending".data ∧ s.enqueued ∧ s.phase = .notStarted then
      { s with status := "running".data, enqueued := false, phase := .atBatch }
    else s
  | .processBatch =>
    if s.phase = .atBatch then
      if s.batchesDone < s.nBatches then
        { s with
          batchesDone := s.batchesDone + 1
          phase := .atCheck
          pausedBatches :=
            s.pausedBatches + (if s.status = "paused".data then 1 else 0) }
      else
        { s with status := "completed".data, phase := .exited }
    else s
  | .pauseCheck =>
    if s.phase = .atCheck then
      if s.status = "paused".data then { s with phase := .exited }
      else { s with phase := .atSleep }
    else s
  | .sleepEnd =>
    if s.phase = .atSleep then { s with phase := .atBatch } else s
  | .pauseReq =>
    if s.status = "running".data then { s with status := "paused".data } else s
  | .resumeReq =>
    if s.status = "paused".data then
      { s with status := "pending".data, enqueued := true }
    else s

/-- Run a trace of events from a state. -/
def jobRun (s : JobStateR) (tr : List JobEvent) : JobStateR := tr.foldl jobStep s

/-- A freshly queued campaign job (`start_campaign`). -/
def initJob (nBatches : Nat) : JobStateR :=
  { status := "pending".data, enqueued := true, batchesDone := 0,
    nBatches := nBatches, phase := .notStarted, pausedBatches := 0 }

/-! ## Concrete instances used in the verification -/

/-- The six keys every `parse_email_response` result is expected to carry. -/
def expectedEmailKeys : List Str :=
  ["subject_line".data, "email_body".data, "personalization_score".data,
   "pain_points_addressed".data, "calendly_integration".data, "format".data]

/-- Scenario-1 lead of §8 of the spec: a VP with pain points and a tech
company description longer than 50 characters. -/
def vpLead : LeadDataR :=
  { name := "Alex".data
    email := "alex@acme.io".data
    company := "Acme".data
    job_title := "VP of Sales".data
    company_description :=
      some "A fast-growing SaaS startup with many customers worldwide".data
    pain_points := ["slow manual process".data, "scaling issues".data] }

/-- The scoring artifacts as they exist when no trained model could be
loaded: `_create_new_model` built a fresh (unfitted) classifier and scaler,
so `self.model is not None` but neither artifact is fitted. -/
def freshModel : ScoringModelR :=
  { scalerFitted := false, modelPresent := true, modelFitted := false,
    scale := id, predictProb := fun _ => 0 }

/-- Orchestrator configuration with a 36-hour follow-up delay (settable via
`FOLLOW_UP_DELAY_HOURS`). -/
def cfg36 : OrchestratorCfgR := { follow_up_delay_hours := 36, lead_score_threshold := 7/10 }

/-- Default orchestrator configuration (48-hour delay, 0.7 threshold). -/
def cfgDefault : OrchestratorCfgR := {}

/-- A high-scoring unbound lead last contacted 40 hours before `now =
144000`. -/
def leadC9x : LeadRecR :=
  { lead_id := "l1".data, name := "Ann".data, email := "ann@x.io".data,
    company := "X".data, job_title := "ceo".data, lead_score := 1,
    last_contacted := some 0 }

/-- An eligible, never-contacted lead with score 0.9. -/
def eligibleLead : LeadRecR :=
  { lead_id := "L1".data, name := "Bo".data, email := "bo@y.io".data,
    company := "Y".data, job_title := "ceo".data, lead_score := 9/10 }

/-- Three-lead batch of concrete scenario 4: the middle lead was contacted
one hour before `now = 144000` (48-hour delay threshold). -/
def scenarioLeads : List LeadRecR :=
  [{ eligibleLead with lead_id := "A".data },
   { eligibleLead with lead_id := "B".data, last_contacted := some (144000 - 3600) },
   { eligibleLead with lead_id := "C".data }]

/-- A fresh personalization-engine state (empty caches, zero counters,
default daily cap 1000). -/
def freshEngineState : EngineStateR :=
  { personalizationCache := [], requestCache := [], lastApiCall := 0,
    dailyApiCalls := 0, maxDailyCalls := 1000, genCount := 0 }

/-- A generative oracle that always fails. -/
def genAlwaysFail : Nat → AIResponseR :=
  fun _ => { success := false, error_message := some "model overloaded".data }

/-- A generative oracle that always succeeds. -/
def genAlwaysOk : Nat → AIResponseR :=
  fun _ => { success := true, content := some "hello there".data }

/-- A well-formed cold-email JSON string. -/
def sampleJson : Str :=
  "\x7b\"subject_line\": \"Hi\", \"email_body\": \"Hello.\"\x7d".data

/-- The same JSON wrapped in a plain (untagged) Markdown code fence. -/
def sampleJsonPlainFence : Str :=
  ("```".data ++ ['\n']) ++ sampleJson ++ (['\n'] ++ "```".data)

/-- The same JSON wrapped in a ```json fence. -/
def sampleJsonTaggedFence : Str :=
  ("```json".data ++ ['\n']) ++ sampleJson ++ (['\n'] ++ "```".data)

/-! ## Lemmas -/

/-- `dictSet` preserves key membership. -/
theorem dictHasKey_dictSet (d : List (Str × PyVal)) (k k' : Str) (v : PyVal)
    (h : dictHasKey d k = true) : dictHasKey (dictSet d k' v) k = true := by
  induction d with
  | nil => simp [dictHasKey] at h
  | cons hd tl ih =>
    obtain ⟨kh, vh⟩ := hd
    simp only [dictHasKey, List.any_cons, Bool.or_eq_true] at h
    simp only [dictSet]
    by_cases hk : kh = k'
    · simp only [if_pos hk, dictHasKey, List.any_cons, Bool.or_eq_true]
      rcases h with h | h
      · left; exact h
      · right; exact h
    · simp only [if_neg hk, dictHasKey, List.any_cons, Bool.or_eq_true]
      rcases h with h | h
      · left; exact h
      · right; exact ih h

/-- `dictSet` on a different key does not change a lookup. -/
theorem dictGet_dictSet_ne (d : List (Str × PyVal)) (k k' : Str) (v dflt : PyVal)
    (h : k' ≠ k) : dictGet (dictSet d k' v) k dflt = dictGet d k dflt := by
  induction d with
  | nil => simp [dictSet, dictGet, List.find?, h]
  | cons hd tl ih =>
    obtain ⟨kh, vh⟩ := hd
    simp only [dictSet]
    by_cases hk : kh = k'
    · subst hk
      simp only [if_pos rfl, dictGet, List.find?]
      have : (decide (kh = k)) = false := by
        simp [decide_eq_false_iff_not]; exact h
      simp [this]
    · simp only [if_neg hk, dictGet, List.find?]
      by_cases hkk : kh = k
      · simp [hkk]
      · have h1 : (decide (kh = k)) = false := by simp [hkk]
        simp only [h1]
        exact ih

/-- Looking up the key just written by `assocSet`. -/
theorem assocFind_assocSet_self {α : Type} (l : List (Str × α)) (k : Str) (v : α) :
    assocFind (assocSet l k v) k = some v := by
  induction l with
  | nil => simp [assocSet, assocFind]
  | cons hd tl ih =>
    obtain ⟨kh, vh⟩ := hd
    simp only [assocSet]
    by_cases hk : kh = k
    · simp [hk, assocFind]
    · simp only [if_neg hk, assocFind]
      simp [hk, ih]

/-- A pattern whose head character does not occur in the text does not occur
as a substring. -/
theorem containsSub_eq_false_of_head_notMem (p : Char) (ps s : Str)
    (h : p ∉ s) : containsSub (p :: ps) s = false := by
  induction s with
  | nil => simp [containsSub]
  | cons c rest ih =>
    simp only [containsSub, Bool.or_eq_false_iff]
    constructor
    · cases hpre : List.isPrefixOf (p :: ps) (c :: rest)
      · rfl
      · exfalso
        rw [List.isPrefixOf_iff_prefix] at hpre
        obtain ⟨t, ht⟩ := hpre
        have hpc : p = c := by
          have := congrArg (fun l => l.headI) ht
          simpa using this
        exact h (hpc ▸ List.mem_cons_self c rest)
    · exact ih (fun hm => h (List.mem_cons_of_mem c hm))

/-- The worker of `str.replace` is the identity when the pattern does not
occur, whatever the fuel. -/
theorem replaceSubF_eq_self_of_not_contains (pat rep : Str) (s : Str)
    (h : containsSub pat s = false) : ∀ fuel, replaceSubF pat rep fuel s = s := by
  induction s with
  | nil => intro fuel; cases fuel <;> rfl
  | cons c rest ih =>
    intro fuel
    simp only [containsSub, Bool.or_eq_false_iff] at h
    cases fuel with
    | zero => rfl
    | succ fuel =>
      rw [replaceSubF, h.1]
      simp [ih h.2]

/-- `str.replace` is the identity when the pattern does not occur. -/
theorem replaceSub_eq_self_of_not_contains (pat rep s : Str)
    (h : containsSub pat s = false) : replaceSub pat rep s = s :=
  replaceSubF_eq_self_of_not_contains pat rep s h s.length

/-! ## Claim theorems -/

/-- Claim C3 (code bug): with no fitted model available (`_create_new_model`
produced an unfitted scaler and classifier), `score_lead` never reaches
`_fallback_scoring`: `self.scaler.transform` raises `NotFittedError` first
and the handler returns the constant default score 0.5 for every lead, while
the heuristic fallback itself would give the spec's 0.9 for the scenario-1
VP lead. -/
theorem scoreLead_unfitted_returns_default_not_heuristic :
    scoreLeadML freshModel vpLead none "l1".data = errorLeadScore "l1".data ∧
    (errorLeadScore "l1".data).score = 1/2 ∧
    fallbackScoring vpLead = 9/10 ∧
    (∀ (lead : LeadDataR) (eng : Option Rat) (idv : Str),
      scoreLeadML freshModel lead eng idv = errorLeadScore idv) := by
  refine ⟨rfl, rfl, ?_, ?_⟩
  · norm_num +decide [fallbackScoring, vpLead, pymin]
  · intro lead eng idv
    simp [scoreLeadML, freshModel]

/-- Claim C4 (counterexample): the blended score is not always in `[0, 1]` —
with a legitimate ML score of 0.5 and a generative job analysis reporting
`decision_score = 500`, the unclamped AI sub-score is 2.51 and the blend is
1.304. -/
theorem blendScore_exceeds_one_on_unclamped_decision_score :
    (enhanceLeadScoringWithAI [("decision_score".data, PyVal.pnum 500)]).ai_score
      = 251/100 ∧
    blendScore (1/2)
      (enhanceLeadScoringWithAI [("decision_score".data, PyVal.pnum 500)]).ai_score
      = 163/125 ∧
    ¬ blendScore (1/2)
      (enhanceLeadScoringWithAI [("decision_score".data, PyVal.pnum 500)]).ai_score ≤ 1 := by
  have h : dictGet [("decision_score".data, PyVal.pnum 500)] "decision_score".data (.pnum 50)
      = .pnum 500 := rfl
  refine ⟨?_, ?_, ?_⟩ <;>
    norm_num [enhanceLeadScoringWithAI, h, pyNumOfVal, blendScore]

/-- Claim C4 (amended): the blend equals `0.6·ml + 0.4·ai` and the
classification thresholds are exact; the blend lies in `[0, 1]` whenever the
ML score is in `[0, 1]` and the job analysis `decision_score` is in
`[0, 100]` (as the fallback's 50 always is), since the AI sub-score
`0.4·(decision_score/100) + 0.21 + 0.3` is not clamped by the code. -/
theorem blendScore_formula_range_and_thresholds (ja : List (Str × PyVal)) (ml ds : Rat)
    (hds : dictGet ja "decision_score".data (.pnum 50) = .pnum ds)
    (h0 : 0 ≤ ds) (h100 : ds ≤ 100) (hml0 : 0 ≤ ml) (hml1 : ml ≤ 1) :
    blendScore ml (enhanceLeadScoringWithAI ja).ai_score
      = ml * (6/10) + (enhanceLeadScoringWithAI ja).ai_score * (4/10) ∧
    0 ≤ blendScore ml (enhanceLeadScoringWithAI ja).ai_score ∧
    blendScore ml (enhanceLeadScoringWithAI ja).ai_score ≤ 1 ∧
    classifyScore (8/10) = ("Hot".data, "Immediate follow-up".data) ∧
    classifyScore (6/10) = ("Warm".data, "Standard sequence".data) ∧
    classifyScore (59999/100000) = ("Cold".data, "Nurturing campaign".data) := by
  have hai : (enhanceLeadScoringWithAI ja).ai_score
      = ds / 100 * (4/10) + (7/10) * (3/10) + 3/10 := by
    simp [enhanceLeadScoringWithAI, hds, pyNumOfVal]
  refine ⟨rfl, ?_, ?_, ?_, ?_, ?_⟩
  · rw [blendScore, hai]; nlinarith
  · rw [blendScore, hai]; nlinarith
  · norm_num [classifyScore]
  · norm_num [classifyScore]
  · norm_num [classifyScore]

/-- Claim C4 (witness): the amended theorem instantiated at the fallback job
analysis (`decision_score = 50`) and the default error ML score 0.5. -/
theorem blendScore_formula_range_and_thresholds_witness :
    dictGet fallbackJobAnalysis "decision_score".data (.pnum 50) = .pnum 50 ∧
    (0 : Rat) ≤ 50 ∧ (50 : Rat) ≤ 100 ∧ (0 : Rat) ≤ 1/2 ∧ (1/2 : Rat) ≤ 1 ∧
    blendScore (1/2) (enhanceLeadScoringWithAI fallbackJobAnalysis).ai_score
      = (1/2) * (6/10) + (enhanceLeadScoringWithAI fallbackJobAnalysis).ai_score * (4/10) := by
  refine ⟨rfl, by norm_num, by norm_num, by norm_num, by norm_num, ?_⟩
  exact (blendScore_formula_range_and_thresholds fallbackJobAnalysis (1/2) 50
    rfl (by norm_num) (by norm_num) (by norm_num) (by norm_num)).1

/-- Claim C5 (code bug): in `_process_lead_batch` the
`update_lead_status(..., "contacted", ...)` call and the
`emails_sent += 1` increment run unconditionally after
`_process_individual_lead`, which swallows generation/send failures — so a
lead whose generation fails is still counted as sent and marked contacted
(though no audit email record is written).  The concrete scenario-4 batch
(lead B contacted one hour ago, 48-hour delay) does yield exactly 2. -/
theorem batch_counts_failed_generation_as_sent :
    (processLeadBatch cfgDefault 0 (fun _ => false) (fun _ => true)
      ⟨"camp".data⟩ {} [eligibleLead]).emailsSent = 1 ∧
    (processLeadBatch cfgDefault 0 (fun _ => false) (fun _ => true)
      ⟨"camp".data⟩ {} [eligibleLead]).emailsRecorded = [] ∧
    (processLeadBatch cfgDefault 0 (fun _ => false) (fun _ => true)
      ⟨"camp".data⟩ {} [eligibleLead]).statusUpdates = ["L1".data] ∧
    (processLeadBatch cfgDefault 144000 (fun _ => true) (fun _ => true)
      ⟨"camp".data⟩ {} scenarioLeads).emailsSent = 2 := by
  refine ⟨?_, ?_, ?_, ?_⟩ <;>
    norm_num +decide [processLeadBatch, scenarioLeads, processBatchStep,
      processIndividualLead, shouldProcessLead, eligibleLead, cfgDefault]

theorem jobInv_step (s : JobStateR) (e : JobEvent) (he : e ≠ JobEvent.resumeReq)
    (h1 : s.pausedBatches ≤ 1)
    (h2 : s.pausedBatches = 1 → s.status = "paused".data ∧
      (s.phase = ExecPhase.atCheck ∨ s.phase = ExecPhase.exited)) :
    (jobStep s e).pausedBatches ≤ 1 ∧
    ((jobStep s e).pausedBatches = 1 → (jobStep s e).status = "paused".data ∧
      ((jobStep s e).phase = ExecPhase.atCheck ∨ (jobStep s e).phase = ExecPhase.exited)) := by
  cases e with
  | resumeReq => exact absurd rfl he
  | startExec =>
    by_cases h : s.status = "pending".data ∧ s.enqueued = true ∧ s.phase = ExecPhase.notStarted
    · simp only [jobStep, if_pos h]
      exact ⟨h1, fun hp => absurd (h.1.symm.trans (h2 hp).1) (by decide)⟩
    · simp only [jobStep, if_neg h]
      exact ⟨h1, h2⟩
  | processBatch =>
    by_cases hphase : s.phase = ExecPhase.atBatch
    · by_cases hlt : s.batchesDone < s.nBatches
      · by_cases hp : s.status = "paused".data
        · have hzero : s.pausedBatches = 0 := by
            by_cases hone : s.pausedBatches = 1
            · exfalso
              rcases (h2 hone).2 with hc | hc <;> rw [hphase] at hc <;> exact absurd hc (by decide)
            · omega
          simp only [jobStep, if_pos hphase, if_pos hlt, if_pos hp, hzero]
          exact ⟨by omega, fun _ => ⟨hp, Or.inl trivial⟩⟩
        · simp only [jobStep, if_pos hphase, if_pos hlt, if_neg hp]
          exact ⟨by omega, fun hone => absurd (h2 (by omega)).1 hp⟩
      · simp only [jobStep, if_pos hphase, if_neg hlt]
        refine ⟨h1, fun hone => ?_⟩
        exfalso
        rcases (h2 hone).2 with hc | hc <;> rw [hphase] at hc <;> exact absurd hc (by decide)
    · simp only [jobStep, if_neg hphase]
      exact ⟨h1, h2⟩
  | pauseCheck =>
    by_cases hphase : s.phase = ExecPhase.atCheck
    · by_cases hp : s.status = "paused".data
      · simp only [jobStep, if_pos hphase, if_pos hp]
        exact ⟨h1, fun _ => ⟨hp, Or.inr trivial⟩⟩
      · simp only [jobStep, if_pos hphase, if_neg hp]
        exact ⟨h1, fun hone => absurd (h2 hone).1 hp⟩
    · simp only [jobStep, if_neg hphase]
      exact ⟨h1, h2⟩
  | sleepEnd =>
    by_cases hphase : s.phase = ExecPhase.atSleep
    · simp only [jobStep, if_pos hphase]
      refine ⟨h1, fun hone => ?_⟩
      exfalso
      rcases (h2 hone).2 with hc | hc <;> rw [hphase] at hc <;> exact absurd hc (by decide)
    · simp only [jobStep, if_neg hphase]
      exact ⟨h1, h2⟩
  | pauseReq =>
    by_cases hrun : s.status = "running".data
    · simp only [jobStep, if_pos hrun]
      refine ⟨h1, fun hone => ?_⟩
      exfalso
      exact absurd (hrun.symm.trans (h2 hone).1) (by decide)
    · simp only [jobStep, if_neg hrun]
      exact ⟨h1, h2⟩

/-- Claim C6 (counterexample): a pause request that lands during the
inter-batch sleep (after the post-batch check) lets the executor process one
more batch while the job status is already `"paused"` — here batch 2 of 2 is
processed while paused. -/
theorem batch_processed_while_paused :
    (jobRun (initJob 2) [.startExec, .processBatch, .pauseCheck, .pauseReq,
      .sleepEnd, .processBatch]).pausedBatches = 1 ∧
    (jobRun (initJob 2) [.startExec, .processBatch, .pauseCheck, .pauseReq,
      .sleepEnd, .processBatch]).status = "paused".data ∧
    (jobRun (initJob 2) [.startExec, .processBatch, .pauseCheck, .pauseReq,
      .sleepEnd, .processBatch]).batchesDone = 2 := by
  refine ⟨by decide, by decide, by decide⟩

/-- Claim C6 (amended): because `_execute_campaign_job` checks the pause flag
only after each batch (before the inter-batch sleep), at most one further
batch can be processed after a pause, and once the check observes the pause
the executor stops; `resume_campaign` moves a paused job back to `"pending"`
and re-enqueues it. -/
theorem pausedJob_bounded_and_resume :
    (∀ (n : Nat) (tr : List JobEvent), JobEvent.resumeReq ∉ tr →
      (jobRun (initJob n) tr).pausedBatches ≤ 1) ∧
    (∀ s : JobStateR, s.status = "paused".data →
      (jobStep s JobEvent.resumeReq).status = "pending".data ∧
      (jobStep s JobEvent.resumeReq).enqueued = true) := by
  constructor
  · have main : ∀ (tr : List JobEvent) (s : JobStateR), JobEvent.resumeReq ∉ tr →
        s.pausedBatches ≤ 1 →
        (s.pausedBatches = 1 → s.status = "paused".data ∧
          (s.phase = ExecPhase.atCheck ∨ s.phase = ExecPhase.exited)) →
        (jobRun s tr).pausedBatches ≤ 1 := by
      intro tr
      induction tr with
      | nil => intro s _ h1 _; exact h1
      | cons e rest ih =>
        intro s hmem h1 h2
        have he : e ≠ JobEvent.resumeReq := fun h => hmem (by rw [h]; exact List.mem_cons_self _ _)
        have hstep := jobInv_step s e he h1 h2
        have hmem2 : JobEvent.resumeReq ∉ rest := fun h => hmem (List.mem_cons_of_mem _ h)
        exact ih (jobStep s e) hmem2 hstep.1 hstep.2
    intro n tr htr
    exact main tr (initJob n) htr (by simp [initJob]) (fun h => by simp [initJob] at h)
  · intro s hs
    simp [jobStep, hs]

/-- Claim C6 (witness): the amended theorem applied to a concrete resume-free
trace and a concrete paused job state. -/
theorem pausedJob_bounded_and_resume_witness :
    (JobEvent.resumeReq ∉ ([JobEvent.startExec, JobEvent.processBatch] : List JobEvent)) ∧
    (jobRun (initJob 1) [JobEvent.startExec, JobEvent.processBatch]).pausedBatches ≤ 1 ∧
    (({ status := "paused".data, enqueued := false, batchesDone := 1, nBatches := 2,
        phase := ExecPhase.atCheck, pausedBatches := 1 } : JobStateR)).status = "paused".data ∧
    (jobStep
      { status := "paused".data, enqueued := false, batchesDone := 1, nBatches := 2,
        phase := ExecPhase.atCheck, pausedBatches := 1 } JobEvent.resumeReq).status
      = "pending".data := by
  refine ⟨by decide, pausedJob_bounded_and_resume.1 1 _ (by decide), rfl,
    (pausedJob_bounded_and_resume.2 _ rfl).1⟩

/-- Claim C7 (counterexample): when the generative call returns an
unsuccessful response (rather than raising), `analyze_response` does not use
the keyword-heuristic fallback — it returns the all-`unknown` analysis with
confidence 0.0 and engagement 0.0 instead of confidence 0.3 / engagement
0.5. -/
theorem analyzeResponse_failed_call_not_keyword_fallback :
    (analyzeResponse
      (.returned
        { success := false, content := none, error_message := some "API error".data })
      "sounds great, yes".data).confidence = 0 ∧
    (analyzeResponse
      (.returned
        { success := false, content := none, error_message := some "API error".data })
      "sounds great, yes".data).engagement_score = 0 ∧
    (analyzeResponse
      (.returned
        { success := false, content := none, error_message := some "API error".data })
      "sounds great, yes".data).sentiment = PyVal.pstr "unknown".data ∧
    (fallbackAnalysis "sounds great, yes".data).confidence = 3/10 ∧
    ¬ ((0 : Rat) = 3/10) := by
  refine ⟨rfl, rfl, rfl, rfl, by norm_num⟩

/-- Claim C7 (amended): the keyword fallback (confidence 0.3, urgency low,
engagement 0.5) is returned when the generative call raises or when a
successful response carries unparseable JSON; an unsuccessful response
instead yields the all-`unknown` analysis with confidence 0; in every case an
`EmailAnalysis` value is produced. -/
theorem analyzeResponse_fallback_paths :
    (∀ (m content : Str), analyzeResponse (.raised m) content = fallbackAnalysis content) ∧
    (∀ (r : AIResponseR) (content : Str), r.success = false →
      analyzeResponse (.returned r) content = unknownAnalysis) ∧
    (∀ (r : AIResponseR) (c content : Str), r.success = true → r.content = some c →
      jsonLoads c = none → analyzeResponse (.returned r) content = fallbackAnalysis content) ∧
    (∀ content : Str, (fallbackAnalysis content).confidence = 3/10 ∧
      (fallbackAnalysis content).urgency = "low".data ∧
      (fallbackAnalysis content).engagement_score = 1/2 ∧
      (fallbackAnalysis content).next_action = PyVal.pstr "manual_review".data) ∧
    (∀ content : Str,
      positiveWords.countP (fun w => containsSub w (lowerStr content)) >
        negativeWords.countP (fun w => containsSub w (lowerStr content)) →
      (fallbackAnalysis content).sentiment = PyVal.pstr "positive".data ∧
      (fallbackAnalysis content).intent = PyVal.pstr "interested".data) ∧
    unknownAnalysis.confidence = 0 := by
  refine ⟨fun m content => rfl, ?_, ?_, fun content => ⟨rfl, rfl, rfl, rfl⟩, ?_, rfl⟩
  · intro r content h
    rcases r with ⟨s, co, e⟩
    simp only [AIResponseR.success] at h
    subst h
    rfl
  · intro r c content hs hc hj
    rcases r with ⟨s, co, e⟩
    simp only [AIResponseR.success] at hs
    simp only [AIResponseR.content] at hc
    subst hs
    subst hc
    simp [analyzeResponse, hj]
  · intro content h
    simp only [fallbackAnalysis]
    rw [if_pos h]
    exact ⟨rfl, rfl⟩

/-- Claim C7 (witness): the amended theorem at concrete responses — an
unsuccessful response and a successful one whose content is not JSON. -/
theorem analyzeResponse_fallback_paths_witness :
    ({ success := false, content := none, error_message := none } : AIResponseR).success
      = false ∧
    analyzeResponse
      (.returned { success := false, content := none, error_message := none })
      "hi".data = unknownAnalysis ∧
    ({ success := true, content := some "oops".data, error_message := none }
      : AIResponseR).success = true ∧
    jsonLoads "oops".data = none ∧
    analyzeResponse
      (.returned { success := true, content := some "oops".data, error_message := none })
      "hi".data = fallbackAnalysis "hi".data := by
  refine ⟨rfl, analyzeResponse_fallback_paths.2.1 _ _ rfl, rfl, rfl,
    analyzeResponse_fallback_paths.2.2.1 _ _ _ rfl rfl rfl⟩

/-- Claim C8: when the daily API counter has reached the cap and there is no
live cache hit for the request key, `personalize_email` makes no generative
call, leaves the engine state untouched, and returns a failed `AIResponse`
whose error message is the descriptive daily-limit text raised by
`_check_rate_limits`. -/
theorem personalizeEmail_daily_cap_fails_fast (gen : Nat → AIResponseR)
    (st : EngineStateR) (lead : LeadDataR) (etype : Str)
    (ctx : Option (List (Str × Str))) (now : Nat)
    (hmiss : getCachedResponse st (mkCacheKey lead etype ctx) now = none)
    (hfull : st.maxDailyCalls ≤ st.dailyApiCalls) :
    personalizeEmail gen st lead etype ctx now =
      (st, { success := false, content := none,
             error_message := some (rateLimitMsg st.maxDailyCalls) }) := by
  simp only [personalizeEmail, hmiss]
  simp [checkRateLimits, hfull]

/-- Claim C8 (witness): the theorem at a fresh engine state whose daily
counter sits at the cap of 1000, including the concrete error text. -/
theorem personalizeEmail_daily_cap_fails_fast_witness :
    getCachedResponse { freshEngineState with dailyApiCalls := 1000 }
      (mkCacheKey vpLead "cold_email".data none) 0 = none ∧
    ({ freshEngineState with dailyApiCalls := 1000 } : EngineStateR).maxDailyCalls ≤ 1000 ∧
    personalizeEmail genAlwaysOk { freshEngineState with dailyApiCalls := 1000 }
      vpLead "cold_email".data none 0 =
      ({ freshEngineState with dailyApiCalls := 1000 },
       { success := false, content := none,
         error_message := some (rateLimitMsg 1000) }) ∧
    rateLimitMsg 1000 =
      "Daily API call limit reached (1000). Please try again tomorrow.".data := by
  refine ⟨rfl, by decide, ?_, by decide⟩
  exact personalizeEmail_daily_cap_fails_fast genAlwaysOk _ vpLead "cold_email".data none 0
    rfl (by decide)

/-- Claim C9 (counterexample): with a 36-hour configured delay, a lead
contacted 40 hours ago (none of the claim's three skip conditions holds: it
is unbound, 40 h ≥ 36 h, and its score 1 meets the threshold) is still
skipped, because the gate compares whole elapsed days (1) against
`36 / 24 = 1.5`. -/
theorem shouldProcessLead_rounds_delay_up :
    shouldProcessLead cfg36 144000 leadC9x ⟨"camp".data⟩ = false ∧
    specShouldProcessLead cfg36 144000 leadC9x ⟨"camp".data⟩ = true ∧
    leadC9x.campaign_id = none ∧
    cfg36.follow_up_delay_hours * 3600 ≤ 144000 - 0 ∧
    ¬ leadC9x.lead_score < cfg36.lead_score_threshold := by
  refine ⟨?_, ?_, rfl, by norm_num [cfg36], ?_⟩
  · norm_num +decide [shouldProcessLead, cfg36, leadC9x]
  · norm_num +decide [specShouldProcessLead, cfg36, leadC9x]
  · norm_num [leadC9x, cfg36]

/-- Claim C9 (amended): `_should_process_lead` returns `False` exactly when
the lead is bound to a different campaign, or the whole number of days since
the last contact is below `follow_up_delay_hours / 24`, or the score is
below the threshold; when the configured delay is a multiple of 24 hours
this coincides with the claim's real-elapsed-time reading. -/
theorem shouldProcessLead_skip_iff (cfg : OrchestratorCfgR) (now : Nat)
    (lead : LeadRecR) (camp : CampaignRecR) :
    (shouldProcessLead cfg now lead camp = false ↔
      ((∃ cid, lead.campaign_id = some cid ∧ cid ≠ [] ∧ cid ≠ camp.campaign_id) ∨
       (∃ t, lead.last_contacted = some t ∧
         (((now - t) / 86400 : Nat) : Rat) < (cfg.follow_up_delay_hours : Rat) / 24) ∨
       lead.lead_score < cfg.lead_score_threshold)) ∧
    (cfg.follow_up_delay_hours % 24 = 0 →
      shouldProcessLead cfg now lead camp = specShouldProcessLead cfg now lead camp) := by
  constructor
  · rw [shouldProcessLead]
    rcases hcid : lead.campaign_id with _ | cid <;>
      rcases hlc : lead.last_contacted with _ | t <;>
        simp [hcid, hlc, imp_iff_not_or, not_le]
  · intro hdvd
    obtain ⟨k, hk⟩ := Nat.dvd_of_mod_eq_zero hdvd
    have key : ∀ t : Nat,
        (decide ((((now - t) / 86400 : Nat) : Rat) < (cfg.follow_up_delay_hours : Rat) / 24))
          = decide (now - t < cfg.follow_up_delay_hours * 3600) := by
      intro t
      rw [decide_eq_decide]
      have hq : (cfg.follow_up_delay_hours : Rat) / 24 = (k : Rat) := by
        rw [hk]; push_cast; ring_nf
      rw [hq, Nat.cast_lt, Nat.div_lt_iff_lt_mul (by norm_num), hk]
      constructor <;> intro h <;> omega
    rw [shouldProcessLead, specShouldProcessLead]
    rcases hcid : lead.campaign_id with _ | cid <;>
      rcases hlc : lead.last_contacted with _ | t <;>
        simp [hcid, hlc, key] <;>
          by_cases hs : lead.lead_score < cfg.lead_score_threshold <;>
            cases cid <;> simp_all [key, Bool.and_assoc]

/-- Claim C9 (witness): the amended theorem at the default 48-hour delay
(a multiple of 24) and the concrete lead contacted 40 hours ago. -/
theorem shouldProcessLead_skip_iff_witness :
    cfgDefault.follow_up_delay_hours % 24 = 0 ∧
    shouldProcessLead cfgDefault 144000 leadC9x ⟨"camp".data⟩
      = specShouldProcessLead cfgDefault 144000 leadC9x ⟨"camp".data⟩ := by
  exact ⟨by decide, (shouldProcessLead_skip_iff cfgDefault 144000 leadC9x
    ⟨"camp".data⟩).2 (by decide)⟩

/-- Claim C2 (counterexample): failures are not cached, so two identical
`personalize_email` calls within the TTL can trigger two generative calls —
with a failing generative service the second call is not served from the
cache and the generative-call counter reaches 2. -/
theorem personalizeEmail_failure_retried_within_ttl :
    (personalizeEmail genAlwaysFail freshEngineState vpLead "cold_email".data none 0).1.genCount
      = 1 ∧
    (personalizeEmail genAlwaysFail
      (personalizeEmail genAlwaysFail freshEngineState vpLead "cold_email".data none 0).1
      vpLead "cold_email".data none 10).1.genCount = 2 ∧
    (personalizeEmail genAlwaysFail
      (personalizeEmail genAlwaysFail freshEngineState vpLead "cold_email".data none 0).1
      vpLead "cold_email".data none 10).2.success = false := by
  refine ⟨rfl, rfl, rfl⟩

/-- Claim C2 (amended): when the first call misses the cache, passes the
daily cap, and its generative call succeeds, a second call with the same
lead/type/context within the 30-minute TTL returns exactly that cached
response and leaves the engine state untouched — independent of the
generative oracle, so no second generative call and no rate-limit check
happen. -/
theorem personalizeEmail_success_cached_second_call_hits (gen gen2 : Nat → AIResponseR)
    (st : EngineStateR) (lead : LeadDataR) (etype : Str) (ctx : Option (List (Str × Str)))
    (t1 t2 : Nat)
    (hmiss : getCachedResponse st (mkCacheKey lead etype ctx) t1 = none)
    (hroom : st.dailyApiCalls < st.maxDailyCalls)
    (hsucc : (gen st.genCount).success = true)
    (httl : t2 - t1 < requestCacheTtl) :
    (personalizeEmail gen st lead etype ctx t1).2 = gen st.genCount ∧
    personalizeEmail gen2 (personalizeEmail gen st lead etype ctx t1).1 lead etype ctx t2
      = ((personalizeEmail gen st lead etype ctx t1).1, gen st.genCount) := by
  have hrl : checkRateLimits st t1 = .ok { st with lastApiCall := t1 } := by
    simp [checkRateLimits, Nat.not_le.mpr hroom]
  have h1 : personalizeEmail gen st lead etype ctx t1 =
      (cacheAiResponse
        (cachePersonalizationData
          { st with lastApiCall := t1, genCount := st.genCount + 1,
                    dailyApiCalls := st.dailyApiCalls + 1 }
          lead.email (getPersonalizationData lead) t1)
        (mkCacheKey lead etype ctx) (gen st.genCount) t1,
       gen st.genCount) := by
    rw [personalizeEmail, hmiss, hrl]
    simp [hsucc]
  rw [h1]
  refine ⟨rfl, ?_⟩
  have hhit : getCachedResponse
      (cacheAiResponse
        (cachePersonalizationData
          { st with lastApiCall := t1, genCount := st.genCount + 1,
                    dailyApiCalls := st.dailyApiCalls + 1 }
          lead.email (getPersonalizationData lead) t1)
        (mkCacheKey lead etype ctx) (gen st.genCount) t1)
      (mkCacheKey lead etype ctx) t2 = some (gen st.genCount) := by
    simp [getCachedResponse, cacheAiResponse, assocFind_assocSet_self, httl]
  rw [personalizeEmail, hhit]

/-- Claim C2 (witness): the amended theorem at a fresh engine state with a
succeeding first generative call, a failing oracle for the (never-made)
second call, and times 0 and 100 seconds. -/
theorem personalizeEmail_success_cached_second_call_hits_witness :
    getCachedResponse freshEngineState (mkCacheKey vpLead "cold_email".data none) 0 = none ∧
    freshEngineState.dailyApiCalls < freshEngineState.maxDailyCalls ∧
    (genAlwaysOk freshEngineState.genCount).success = true ∧
    100 - 0 < requestCacheTtl ∧
    personalizeEmail genAlwaysFail
      (personalizeEmail genAlwaysOk freshEngineState vpLead "cold_email".data none 0).1
      vpLead "cold_email".data none 100
      = ((personalizeEmail genAlwaysOk freshEngineState vpLead "cold_email".data none 0).1,
         genAlwaysOk freshEngineState.genCount) := by
  refine ⟨rfl, by decide, rfl, by decide, ?_⟩
  exact (personalizeEmail_success_cached_second_call_hits genAlwaysOk genAlwaysFail
    freshEngineState vpLead "cold_email".data none 0 100 rfl (by decide) rfl (by decide)).2


/-! ## Lemmas and theorems for the response parser (`parse_email_response`) -/

/-- Looking up the key just written by `dictSet`. -/
theorem dictGet_dictSet_self (d : List (Str × PyVal)) (k : Str) (v dflt : PyVal) :
    dictGet (dictSet d k v) k dflt = v := by
  induction d with
  | nil => simp [dictSet, dictGet, List.find?]
  | cons hd tl ih =>
    obtain ⟨kh, vh⟩ := hd
    simp only [dictSet]
    by_cases hk : kh = k
    · simp [hk, dictGet, List.find?]
    · simp only [if_neg hk, dictGet, List.find?]
      have h1 : (decide (kh = k)) = false := by simp [hk]
      simp only [h1]
      exact ih

/-- The `except`-handler dict carries every expected key. -/
theorem errorParseDict_keys (raw msg k : Str) (hk : k ∈ expectedEmailKeys) :
    dictHasKey (errorParseDict raw msg) k = true := by
  simp only [expectedEmailKeys, List.mem_cons, List.mem_singleton] at hk
  rcases hk with rfl | rfl | rfl | rfl | rfl | hk
  · rfl
  · rfl
  · rfl
  · rfl
  · rfl
  · simp at hk; subst hk; rfl

/-- The `except`-handler dict is tagged `error`. -/
theorem errorParseDict_format (raw msg : Str) :
    dictGet (errorParseDict raw msg) "format".data .pnull = .pstr "error".data := rfl

/-- The JSON-branch dict carries every expected key. -/
theorem jsonBranchDict_keys (dd : List (Str × PyVal)) (k : Str) (hk : k ∈ expectedEmailKeys) :
    dictHasKey (jsonBranchDict dd) k = true := by
  simp only [expectedEmailKeys, List.mem_cons, List.mem_singleton] at hk
  rcases hk with rfl | rfl | rfl | rfl | rfl | hk
  · rfl
  · rfl
  · rfl
  · rfl
  · rfl
  · simp at hk; subst hk; rfl

/-- The raw-text-branch dict carries every expected key. -/
theorem rawBranchDict_keys (c k : Str) (hk : k ∈ expectedEmailKeys) :
    dictHasKey (rawBranchDict c) k = true := by
  simp only [expectedEmailKeys, List.mem_cons, List.mem_singleton] at hk
  rcases hk with rfl | rfl | rfl | rfl | rfl | hk
  · rfl
  · rfl
  · rfl
  · rfl
  · rfl
  · simp at hk; subst hk; rfl

/-- The initial key-value-branch dict carries every expected key. -/
theorem kvInitDict_keys (k : Str) (hk : k ∈ expectedEmailKeys) :
    dictHasKey kvInitDict k = true := by
  simp only [expectedEmailKeys, List.mem_cons, List.mem_singleton] at hk
  rcases hk with rfl | rfl | rfl | rfl | rfl | hk
  · rfl
  · rfl
  · rfl
  · rfl
  · rfl
  · simp at hk; subst hk; rfl

/-- The post-processing of `email_body` preserves every expected key (the
error path replaces the dict by `errorParseDict`, which also has them). -/
theorem postProcessBody_keys (d : List (Str × PyVal)) (raw k : Str)
    (hk : k ∈ expectedEmailKeys) (h : dictHasKey d k = true) :
    dictHasKey (postProcessBody d raw) k = true := by
  rw [postProcessBody]
  split_ifs with ht
  · cases hb : dictGet d "email_body".data .pnull <;> simp only [hb]
    · exact dictHasKey_dictSet _ _ _ _ h
    all_goals exact errorParseDict_keys _ _ _ hk
  · exact h

/-- The post-processing of `email_body` keeps the `format` tag or turns the
dict into the `error`-tagged handler dict. -/
theorem postProcessBody_format (d : List (Str × PyVal)) (raw : Str) :
    dictGet (postProcessBody d raw) "format".data .pnull = dictGet d "format".data .pnull ∨
    dictGet (postProcessBody d raw) "format".data .pnull = .pstr "error".data := by
  rw [postProcessBody]
  split_ifs with ht
  · cases hb : dictGet d "email_body".data .pnull <;> simp only [hb]
    · left
      exact dictGet_dictSet_ne _ _ _ _ _ (by decide)
    all_goals exact Or.inr (errorParseDict_format _ _)
  · exact Or.inl rfl

/-- Saving an accumulated key-value pair preserves key membership. -/
theorem kvSave_keys (d : List (Str × PyVal)) (ck : Str) (cv : List Str) (k : Str)
    (h : dictHasKey d k = true) : dictHasKey (kvSave d ck cv) k = true := by
  rw [kvSave]
  split_ifs
  · exact dictHasKey_dictSet _ _ _ _ h
  · exact dictHasKey_dictSet _ _ _ _ h
  · cases hpf : pyFloat (stripChars "\"".data (joinSpace cv)) <;> simp only [hpf] <;>
      exact dictHasKey_dictSet _ _ _ _ h
  · exact dictHasKey_dictSet _ _ _ _ h
  · exact dictHasKey_dictSet _ _ _ _ h
  · exact h

/-- One line of the key-value loop preserves key membership. -/
theorem kvStep_keys (st : List (Str × PyVal) × Option Str × List Str) (line k : Str)
    (h : dictHasKey st.1 k = true) : dictHasKey (kvStep st line).1 k = true := by
  obtain ⟨d, ck, cv⟩ := st
  simp only [kvStep]
  split_ifs with h1 h2
  · exact kvSave_keys _ _ _ _ h
  · exact h
  · cases ck with
    | none => exact h
    | some s => dsimp only; split_ifs <;> exact h

/-- The whole key-value branch carries every expected key. -/
theorem kvBranchDict_keys (content k : Str) (hk : k ∈ expectedEmailKeys) :
    dictHasKey (kvBranchDict content) k = true := by
  rw [kvBranchDict]
  have hfold : ∀ (lines : List Str) (st : List (Str × PyVal) × Option Str × List Str),
      dictHasKey st.1 k = true →
      dictHasKey (List.foldl kvStep st lines).1 k = true := by
    intro lines
    induction lines with
    | nil => intro st h; exact h
    | cons l rest ih => intro st h; exact ih _ (kvStep_keys st l k h)
  have hinit := hfold (splitOnChar '\n' content) (kvInitDict, none, []) (kvInitDict_keys k hk)
  rcases hfd : List.foldl kvStep (kvInitDict, none, []) (splitOnChar '\n' content)
    with ⟨d, ck, cv⟩
  rw [hfd] at hinit
  simp only [hfd]
  split_ifs with hready
  · exact kvSave_keys _ _ _ _ hinit
  · exact hinit

/-- The processed raw-text branch is tagged `raw_text` and its body is a
string. -/
theorem rawBranch_post_facts (c raw : Str) :
    dictGet (postProcessBody (rawBranchDict c) raw) "format".data .pnull
      = .pstr "raw_text".data ∧
    ∃ b, dictGet (postProcessBody (rawBranchDict c) raw) "email_body".data .pnull
      = .pstr b := by
  rw [postProcessBody]
  have hb : dictGet (rawBranchDict c) "email_body".data .pnull = .pstr c := rfl
  rw [hb]
  cases c with
  | nil => exact ⟨rfl, [], rfl⟩
  | cons ch ct =>
    simp only [pyTruthy, List.isEmpty, Bool.not_false, if_pos rfl]
    constructor
    · exact dictGet_dictSet_ne _ _ _ _ _ (by decide)
    · exact ⟨_, dictGet_dictSet_self _ _ _ _⟩

/-- The JSON branch is tagged `json` or `error`. -/
theorem jsonBranchResult_format (content raw : Str) :
    dictGet (jsonBranchResult content raw) "format".data .pnull = .pstr "json".data ∨
    dictGet (jsonBranchResult content raw) "format".data .pnull = .pstr "error".data := by
  rw [jsonBranchResult]
  rcases h : jsonLoads (fenceStripped content) with _ | v
  · exact Or.inr (errorParseDict_format _ _)
  · cases v with
    | pdict dd =>
      rcases postProcessBody_format (jsonBranchDict dd) raw with h2 | h2
      · exact Or.inl (h2.trans rfl)
      · exact Or.inr h2
    | pstr s => exact Or.inr (errorParseDict_format _ _)
    | pnum q => exact Or.inr (errorParseDict_format _ _)
    | pbool b => exact Or.inr (errorParseDict_format _ _)
    | pnull => exact Or.inr (errorParseDict_format _ _)
    | plist xs => exact Or.inr (errorParseDict_format _ _)

/-- The JSON branch carries every expected key. -/
theorem jsonBranchResult_keys (content raw k : Str) (hk : k ∈ expectedEmailKeys) :
    dictHasKey (jsonBranchResult content raw) k = true := by
  rw [jsonBranchResult]
  rcases h : jsonLoads (fenceStripped content) with _ | v
  · exact errorParseDict_keys _ _ _ hk
  · cases v with
    | pdict dd => exact postProcessBody_keys _ _ _ hk (jsonBranchDict_keys dd k hk)
    | pstr s => exact errorParseDict_keys _ _ _ hk
    | pnum q => exact errorParseDict_keys _ _ _ hk
    | pbool b => exact errorParseDict_keys _ _ _ hk
    | pnull => exact errorParseDict_keys _ _ _ hk
    | plist xs => exact errorParseDict_keys _ _ _ hk

/-- Two patterns with different head characters cannot both be prefixes. -/
theorem startsWith_ne_head (a b : Char) (pa pb : Str) (hab : b ≠ a) (s : Str)
    (h : startsWith (a :: pa) s = true) : startsWith (b :: pb) s = false := by
  cases s with
  | nil => simp [startsWith, List.isPrefixOf] at h
  | cons c cr =>
    simp only [startsWith, List.isPrefixOf, Bool.and_eq_true, beq_iff_eq] at h
    simp only [startsWith, List.isPrefixOf, Bool.and_eq_false_iff]
    left
    simp only [beq_eq_false_iff_ne, ne_eq]
    intro hb
    exact (hab (hb.trans h.1.symm)).elim

/-- Claim C1 (counterexample): for an `AIResponse` whose content is the empty
string (or `None`, or a missing response), `parse_email_response` returns
`None`, not a mapping containing the expected keys. -/
theorem parseEmailResponse_empty_returns_none :
    parseEmailResponse (some []) = none ∧ parseEmailResponse none = none ∧
    ("" : String).data = ([] : Str) := ⟨rfl, rfl, rfl⟩

/-- Claim C1 (amended): for every non-empty content string,
`parse_email_response` returns (without raising) a mapping carrying all six
expected keys; when the stripped content enters neither the JSON branch nor
the key-value branch, the tag is `raw_text` and the body is a string; when
it enters the JSON branch the tag is `json` or `error`.  Empty or missing
content yields `None` instead. -/
theorem parseEmailResponse_total_with_keys (s : Str) (hs : s ≠ []) :
    ∃ d, parseEmailResponse (some s) = some d ∧
      (∀ k ∈ expectedEmailKeys, dictHasKey d k = true) ∧
      (startsWith "\x7b".data (stripWs s) = false →
       startsWith "```json".data (stripWs s) = false →
       containsSub "subject_line:".data (stripWs s) = false →
       containsSub "email_body:".data (stripWs s) = false →
       dictGet d "format".data .pnull = .pstr "raw_text".data ∧
       ∃ b, dictGet d "email_body".data .pnull = .pstr b) ∧
      ((startsWith "\x7b".data (stripWs s) = true ∨
        startsWith "```json".data (stripWs s) = true) →
       dictGet d "format".data .pnull = .pstr "json".data ∨
       dictGet d "format".data .pnull = .pstr "error".data) := by
  have hne : s.isEmpty = false := by cases s with | nil => exact absurd rfl hs | cons a b => rfl
  rw [parseEmailResponse]
  simp only [hne, Bool.false_eq_true, if_false]
  by_cases hjson : (startsWith "\x7b".data (stripWs s) || startsWith "```json".data (stripWs s))
      = true
  · rw [if_pos hjson]
    refine ⟨jsonBranchResult (stripWs s) s, rfl, ?_, ?_, ?_⟩
    · intro k hk; exact jsonBranchResult_keys _ _ _ hk
    · intro h1 h2 _ _
      rw [h1, h2] at hjson
      simp at hjson
    · intro _
      exact jsonBranchResult_format _ _
  · rw [if_neg hjson]
    simp only [Bool.or_eq_true, not_or, Bool.not_eq_true] at hjson
    by_cases hkv : (containsSub "subject_line:".data (stripWs s) ||
        containsSub "email_body:".data (stripWs s)) = true
    · rw [if_pos hkv]
      refine ⟨postProcessBody (kvBranchDict (stripWs s)) s, rfl, ?_, ?_, ?_⟩
      · intro k hk
        exact postProcessBody_keys _ _ _ hk (kvBranchDict_keys _ _ hk)
      · intro _ _ h3 h4
        rw [h3, h4] at hkv
        simp at hkv
      · intro hc
        rcases hc with hc | hc
        · rw [hjson.1] at hc; exact absurd hc (by decide)
        · rw [hjson.2] at hc; exact absurd hc (by decide)
    · rw [if_neg hkv]
      refine ⟨postProcessBody (rawBranchDict (stripWs s)) s, rfl, ?_, ?_, ?_⟩
      · intro k hk
        exact postProcessBody_keys _ _ _ hk (rawBranchDict_keys _ _ hk)
      · intro _ _ _ _
        exact rawBranch_post_facts _ _
      · intro hc
        rcases hc with hc | hc
        · rw [hjson.1] at hc; exact absurd hc (by decide)
        · rw [hjson.2] at hc; exact absurd hc (by decide)

/-- Claim C1 (witness): the amended theorem at the spec's concrete
scenario-2 garbage input `not valid json\x7b`. -/
theorem parseEmailResponse_total_with_keys_witness :
    ("not valid json\x7b".data ≠ ([] : Str)) ∧
    (∃ d, parseEmailResponse (some "not valid json\x7b".data) = some d ∧
      (∀ k ∈ expectedEmailKeys, dictHasKey d k = true) ∧
      (startsWith "\x7b".data (stripWs "not valid json\x7b".data) = false →
       startsWith "```json".data (stripWs "not valid json\x7b".data) = false →
       containsSub "subject_line:".data (stripWs "not valid json\x7b".data) = false →
       containsSub "email_body:".data (stripWs "not valid json\x7b".data) = false →
       dictGet d "format".data .pnull = .pstr "raw_text".data ∧
       ∃ b, dictGet d "email_body".data .pnull = .pstr b) ∧
      ((startsWith "\x7b".data (stripWs "not valid json\x7b".data) = true ∨
        startsWith "```json".data (stripWs "not valid json\x7b".data) = true) →
       dictGet d "format".data .pnull = .pstr "json".data ∨
       dictGet d "format".data .pnull = .pstr "error".data)) :=
  ⟨by decide, parseEmailResponse_total_with_keys "not valid json\x7b".data (by decide)⟩

/-- Claim C10 (counterexample): a plain ``` fence (without the `json` tag) is
not stripped — the branch guard only admits content starting with `{` or
```json, so the fenced well-formed JSON degrades to a `raw_text` result while
the unfenced version parses as `json` with its fields extracted. -/
theorem parseEmailResponse_plain_fence_not_stripped :
    (∃ dj, parseEmailResponse (some sampleJson) = some dj ∧
      dictGet dj "format".data .pnull = .pstr "json".data ∧
      dictGet dj "subject_line".data .pnull = .pstr "Hi".data ∧
      dictGet dj "email_body".data .pnull = .pstr "Hello.".data) ∧
    (∃ dr, parseEmailResponse (some sampleJsonPlainFence) = some dr ∧
      dictGet dr "format".data .pnull = .pstr "raw_text".data ∧
      dictGet dr "subject_line".data .pnull = .pstr "No subject generated".data) := by
  exact ⟨⟨_, rfl, rfl, rfl, rfl⟩, ⟨_, rfl, rfl, rfl⟩⟩

/-- Claim C10 (amended): for a well-formed JSON object (entering the `{`
branch) whose `email_body` value is a string free of literal escape
artifacts and surrounding whitespace, parsing returns exactly the object's
field values with per-field defaults; and any input whose stripped content
carries a ```json fence that the `.replace`-based clean-up reduces to the
same JSON text parses to the same result.  Plain ``` fences are not covered:
they fall through to the raw-text tier (see the counterexample). -/
theorem parseEmailResponse_wellformed_json_identity (s : Str) (d : List (Str × PyVal))
    (b : Str)
    (hstart : startsWith "\x7b".data (stripWs s) = true)
    (hload : jsonLoads (stripWs s) = some (.pdict d))
    (hbody : dictGet d "email_body".data (.pstr []) = .pstr b)
    (hnb : '\\' ∉ b)
    (hsw : stripWs b = b) :
    parseEmailResponse (some s) = some
      [("subject_line".data, dictGet d "subject_line".data (.pstr "No subject generated".data)),
       ("email_body".data, .pstr b),
       ("personalization_score".data, dictGet d "personalization_score".data (.pnum 0)),
       ("pain_points_addressed".data, dictGet d "pain_points_addressed".data (.plist [])),
       ("calendly_integration".data, dictGet d "calendly_integration".data (.pstr [])),
       ("format".data, .pstr "json".data)] ∧
    (∀ f : Str, startsWith "```json".data (stripWs f) = true →
      stripWs (replaceSub "```".data [] (replaceSub "```json".data [] (stripWs f)))
        = stripWs s →
      parseEmailResponse (some f) = parseEmailResponse (some s)) := by
  have hne : s.isEmpty = false := by
    cases s with
    | nil => exact absurd hstart (by decide)
    | cons a t => rfl
  have hfence1 : startsWith "```json".data (stripWs s) = false :=
    startsWith_ne_head '{' '`' _ _ (by decide) _ hstart
  have hfence2 : startsWith "```".data (stripWs s) = false :=
    startsWith_ne_head '{' '`' _ _ (by decide) _ hstart
  have hfs : fenceStripped (stripWs s) = stripWs s := by
    rw [fenceStripped, if_neg (by rw [hfence1]; exact Bool.false_ne_true),
      if_neg (by rw [hfence2]; exact Bool.false_ne_true)]
  have hbody2 : dictGet (jsonBranchDict d) "email_body".data .pnull
      = PyVal.pstr b := by
    have h0 : dictGet (jsonBranchDict d) "email_body".data .pnull
        = dictGet d "email_body".data (.pstr []) := rfl
    rw [h0, hbody]
  have hrep : ∀ raw : Str, postProcessBody (jsonBranchDict d) raw =
      [("subject_line".data, dictGet d "subject_line".data (.pstr "No subject generated".data)),
       ("email_body".data, .pstr b),
       ("personalization_score".data, dictGet d "personalization_score".data (.pnum 0)),
       ("pain_points_addressed".data, dictGet d "pain_points_addressed".data (.plist [])),
       ("calendly_integration".data, dictGet d "calendly_integration".data (.pstr [])),
       ("format".data, .pstr "json".data)] := by
    intro raw
    rw [postProcessBody, hbody2]
    cases hb : b with
    | nil =>
      subst hb
      simp only [pyTruthy, List.isEmpty, Bool.not_true, if_neg (by decide : ¬(false = true))]
      rw [jsonBranchDict, hbody]
    | cons c0 ct =>
      simp only [pyTruthy, List.isEmpty, Bool.not_false, if_pos rfl]
      rw [← hb]
      have e1 : replaceSub "\\n".data "\n".data b = b :=
        replaceSub_eq_self_of_not_contains _ _ _
          (containsSub_eq_false_of_head_notMem _ _ _ hnb)
      have e2 : replaceSub "\\\"".data "\"".data b = b :=
        replaceSub_eq_self_of_not_contains _ _ _
          (containsSub_eq_false_of_head_notMem _ _ _ hnb)
      have e3 : replaceSub "\\t".data "\t".data b = b :=
        replaceSub_eq_self_of_not_contains _ _ _
          (containsSub_eq_false_of_head_notMem _ _ _ hnb)
      rw [e1, e2, e3, hsw, jsonBranchDict]
      simp only [dictSet]
      norm_num +decide
  have hmain : parseEmailResponse (some s) = some
      [("subject_line".data, dictGet d "subject_line".data (.pstr "No subject generated".data)),
       ("email_body".data, .pstr b),
       ("personalization_score".data, dictGet d "personalization_score".data (.pnum 0)),
       ("pain_points_addressed".data, dictGet d "pain_points_addressed".data (.plist [])),
       ("calendly_integration".data, dictGet d "calendly_integration".data (.pstr [])),
       ("format".data, .pstr "json".data)] := by
    rw [parseEmailResponse]
    simp only [hne, Bool.false_eq_true, if_false]
    rw [if_pos (by rw [hstart]; simp)]
    rw [jsonBranchResult, hfs, hload]
    show some (postProcessBody (jsonBranchDict d) s) = _
    rw [hrep s]
  refine ⟨hmain, ?_⟩
  intro f hf hstrip
  have hnef : f.isEmpty = false := by
    cases f with
    | nil => exact absurd hf (by decide)
    | cons a t => rfl
  rw [hmain]
  rw [parseEmailResponse]
  simp only [hnef, Bool.false_eq_true, if_false]
  rw [if_pos (by rw [hf]; simp)]
  rw [jsonBranchResult, fenceStripped, if_pos hf, hstrip, hload]
  show some (postProcessBody (jsonBranchDict d) f) = _
  rw [hrep f]

/-- Claim C10 (witness): the amended theorem at the concrete well-formed
JSON and its ```json-fenced wrapping, whose parses coincide. -/
theorem parseEmailResponse_wellformed_json_identity_witness :
    startsWith "\x7b".data (stripWs sampleJson) = true ∧
    jsonLoads (stripWs sampleJson) = some (.pdict
      [("subject_line".data, .pstr "Hi".data), ("email_body".data, .pstr "Hello.".data)]) ∧
    startsWith "```json".data (stripWs sampleJsonTaggedFence) = true ∧
    stripWs (replaceSub "```".data [] (replaceSub "```json".data []
      (stripWs sampleJsonTaggedFence))) = stripWs sampleJson ∧
    parseEmailResponse (some sampleJsonTaggedFence) = parseEmailResponse (some sampleJson) := by
  refine ⟨rfl, rfl, rfl, rfl, ?_⟩
  exact (parseEmailResponse_wellformed_json_identity sampleJson
    [("subject_line".data, .pstr "Hi".data), ("email_body".data, .pstr "Hello.".data)]
    "Hello.".data rfl rfl rfl (by decide) rfl).2 sampleJsonTaggedFence rfl rfl
